import Mathlib

/-!
# Verification of the Network Optimization Engine (src/lib/optimizer/networkOptimizer.ts)

Shallow embedding of the network-optimization engine over exact rationals.

Modelling conventions:
* JavaScript numbers are modelled by `ℚ`.  The only places the source can
  produce a non-finite number (`Infinity` as the initial "minimum distance"
  accumulator, and the `Infinity`-guards `Number.isFinite`) are modelled
  explicitly with `Option ℚ`, where `none` plays the role of a non-finite
  value.  `Math.round x` is `⌊x + 1/2⌋` (JS rounds half away from zero
  towards `+∞` for positive halves, i.e. `floor (x + 0.5)`).
* The transcendental functions used by the source — `haversineDistance`
  (built from `sin`/`cos`/`atan2`), `Math.sqrt` and `Math.exp` — are kept
  abstract: every definition that needs them takes them as an explicit
  function argument (`dist`, `sq`, `e`).  All verified properties are
  independent of their exact values (theorems quantify over them), and
  concrete instances are supplied for witnesses.
* String operations (`toLowerCase`, `trim`, `includes`) are modelled for
  ASCII strings, which covers the gazetteer keys and all tested inputs.
* `Map`/`Set` objects are modelled by association lists that preserve the
  JS insertion order (first-insertion order of keys, `push`/`add` order of
  values), and `Array.prototype.sort` by a stable sort (`List.insertionSort`,
  which agrees with any stable sort under the comparator's total preorder).
-/

set_option maxRecDepth 100000
set_option maxHeartbeats 1000000

/-- JS `Math.round`: round half towards `+∞` (`Math.round (-2.5) = -2`). -/
def jsRound (q : ℚ) : ℤ := ⌊q + 1/2⌋

/-- `Math.round (q * 10) / 10` — rounding to one decimal, used throughout the source. -/
def round1 (q : ℚ) : ℚ := (jsRound (q * 10) : ℚ) / 10

/-- `Math.round (q * 100) / 100` — rounding to two decimals (statistics module). -/
def round2 (q : ℚ) : ℚ := (jsRound (q * 100) : ℚ) / 100

/-- JS `a || d` for strings: `undefined`/empty string are falsy. `none` models `undefined`. -/
def jsOrString (o : Option String) (d : String) : String :=
  match o with
  | some s => if s = "" then d else s
  | none => d

/-- JS `n || d` for a counter: `0` is falsy. -/
def jsOrNat (o : Option ℕ) (d : ℕ) : ℕ :=
  match o with
  | some v => if v = 0 then d else v
  | none => d

/-- `d < m` against an optional bound, where `none` models JS `Infinity`
(so the comparison is always true). -/
def ltOpt (d : ℚ) : Option ℚ → Bool
  | none => true
  | some m => decide (d < m)

/-- ASCII model of `Char` lowering as performed by JS `toLowerCase`. -/
def jsCharLower (c : Char) : Char :=
  if 65 ≤ c.toNat ∧ c.toNat ≤ 90 then Char.ofNat (c.toNat + 32) else c

/-- ASCII model of JS `String.prototype.toLowerCase`. -/
def jsToLower (s : String) : String := ⟨s.data.map jsCharLower⟩

/-- Whitespace predicate for the ASCII model of JS `String.prototype.trim`. -/
def jsIsWs (c : Char) : Bool := c = ' ' || c = '\t' || c = '\n' || c = '\r'

/-- ASCII model of JS `String.prototype.trim`. -/
def jsTrim (s : String) : String :=
  ⟨((s.data.dropWhile jsIsWs).reverse.dropWhile jsIsWs).reverse⟩

/-- Boolean prefix test on lists (for the substring model). -/
def listPrefix : List Char → List Char → Bool
  | [], _ => true
  | _ :: _, [] => false
  | a :: as, b :: bs => if a = b then listPrefix as bs else false

/-- Boolean infix (contiguous-substring) test on lists. -/
def listInfix (p : List Char) : List Char → Bool
  | [] => p.isEmpty
  | b :: bs => listPrefix p (b :: bs) || listInfix p bs

/-- Model of JS `s.includes(sub)`: `sub` occurs contiguously in `s`. -/
def jsIncludes (s sub : String) : Bool := listInfix sub.data s.data

/-! ## Data model (input side)

The optimizer reads the following fields of `CleanedFacility` (defined in
`dataClean.ts`, extending `Facility` from `types/facility.ts`): `id`, `name`,
`validCoordinates`, `coordinates`, `address.stateOrRegion`, `capabilities`
and `dataQualityScore`; and of `RegionStats`: `name` and `totalFacilities`.
Unused fields are omitted from the embedding.  The source reads
`facility.address?.stateOrRegion`, so the address is modelled as optional. -/

structure Coordinates where
  lat : ℚ
  lng : ℚ
deriving DecidableEq

structure Address where
  stateOrRegion : Option String
deriving DecidableEq

structure CleanedFacility where
  id : String
  name : String
  validCoordinates : Bool
  coordinates : Option Coordinates
  address : Option Address
  capabilities : List String
  dataQualityScore : Option ℚ
deriving DecidableEq

structure RegionStats where
  name : String
  totalFacilities : ℕ
deriving DecidableEq

/-! ## Data model (output side) — mirrors the exported interfaces. -/

/-- `OptimizationNode`.  `nearestFacilityDistance` starts as `Infinity`
(`none`) and is overwritten by `formatDistance` during the graph build. -/
structure OptimizationNode where
  facilityId : String
  name : String
  lat : ℚ
  lng : ℚ
  region : String
  capabilities : List String
  qualityScore : ℚ
  responseTimeMinutes : ℚ
  nearestFacilityDistance : Option ℚ
  nearestFacilityName : String
deriving DecidableEq

instance : Inhabited OptimizationNode :=
  ⟨{ facilityId := "", name := "", lat := 0, lng := 0, region := "",
     capabilities := [], qualityScore := 0, responseTimeMinutes := 0,
     nearestFacilityDistance := none, nearestFacilityName := "" }⟩

/-- `NetworkEdge` — `from`/`to` are renamed `fromId`/`toId` (`from` is a Lean keyword). -/
structure NetworkEdge where
  fromId : String
  toId : String
  fromName : String
  toName : String
  distance : ℚ
  travelTime : ℚ
  weight : ℚ
deriving DecidableEq

instance : Inhabited NetworkEdge :=
  ⟨{ fromId := "", toId := "", fromName := "", toName := "",
     distance := 0, travelTime := 0, weight := 0 }⟩

structure FacilityDistance where
  facilityId : String
  facilityName : String
  nearestFacilityId : String
  nearestFacilityName : String
  distanceKm : ℚ
  travelTimeMinutes : ℚ
deriving DecidableEq

structure CoverageGap where
  regionName : String
  centroid : Coordinates
  nearestFacilityDistance : ℚ
  nearestFacilityTime : ℚ
  populationEstimate : ℚ
  urgencyScore : ℚ
  recommendedAction : String
deriving DecidableEq

structure OptimizationMetrics where
  averageResponseTime : ℚ
  medianResponseTime : ℚ
  p95ResponseTime : ℚ
  coveragePercentage : ℚ
  networkEfficiency : ℚ
  paretoScore : ℤ
  totalFacilities : ℕ
  avgInterFacilityDistance : ℤ
  maxInterFacilityDistance : ℤ
  minInterFacilityDistance : ℤ
deriving DecidableEq

inductive Significance where
  | significant
  | marginal
  | not_significant
deriving DecidableEq

structure StatisticalAnalysis where
  pValue : ℚ
  confidenceInterval : ℚ × ℚ
  effectSize : ℚ
  sampleSize : ℕ
  standardError : ℚ
  significanceLevel : Significance
deriving DecidableEq

structure OptimalLocation where
  name : String
  coordinates : Coordinates
  currentCoverageRadius : ℤ
  populationServed : ℤ
  rank : ℕ
  reason : String
deriving DecidableEq

inductive FacilityKind where
  | hospital
  | clinic
  | health_center
deriving DecidableEq

inductive PriorityLevel where
  | critical
  | high
  | medium
deriving DecidableEq

/-- `RecommendedFacility`.  `distanceFromNearest` is `none` when the source
would report `Infinity` (no existing facility at all). -/
structure RecommendedFacility where
  suggestedLocation : Coordinates
  facilityType : FacilityKind
  priority : PriorityLevel
  estimatedPopulationServed : ℚ
  nearestExistingFacility : String
  distanceFromNearest : Option ℚ
  justification : String
deriving DecidableEq

structure PopulationCenter where
  name : String
  coordinates : Coordinates
  estimatedPopulation : ℚ
  nearestFacilityDistance : ℚ
  nearestFacilityName : String
  accessTimeMinutes : ℚ
  meetsWHOStandard : Bool
deriving DecidableEq

structure NetworkBottleneck where
  location : String
  issue : String
  severity : PriorityLevel
  recommendation : String
deriving DecidableEq

inductive AccessGrade where
  | A
  | B
  | C
  | D
  | F
deriving DecidableEq

structure CriticalInsights where
  optimalHubLocations : List OptimalLocation
  recommendedNewFacilities : List RecommendedFacility
  underservedPopulationCenters : List PopulationCenter
  networkBottlenecks : List NetworkBottleneck
  whoComplianceScore : ℤ
  accessibilityGrade : AccessGrade
deriving DecidableEq

structure OptimizationResult where
  nodes : List OptimizationNode
  edges : List NetworkEdge
  hubFacilities : List String
  coverageGaps : List CoverageGap
  metrics : OptimizationMetrics
  statisticalAnalysis : StatisticalAnalysis
  criticalInsights : CriticalInsights
  facilityDistanceMatrix : List FacilityDistance
deriving DecidableEq

/-! ## Constants -/

def WHO_ACCESS_THRESHOLD : ℚ := 90
def MAX_EDGE_DISTANCE : ℚ := 300
def MAX_DISPLAY_DISTANCE : ℚ := 2400
def MAX_DISPLAY_TIME : ℚ := 2880
def GRID_CELL_SIZE : ℚ := 0.5

def TRAVEL_SPEEDS_urban : ℚ := 30
def TRAVEL_SPEEDS_suburban : ℚ := 45
def TRAVEL_SPEEDS_rural : ℚ := 60

/-! ## Distance/time formatting -/

/-- `formatDistance`: a non-finite (`none`) or over-cap distance collapses to
`MAX_DISPLAY_DISTANCE`; otherwise round to one decimal. -/
def formatDistance (distanceKm : Option ℚ) : ℚ :=
  match distanceKm with
  | none => MAX_DISPLAY_DISTANCE
  | some d => if d > MAX_DISPLAY_DISTANCE then MAX_DISPLAY_DISTANCE else round1 d

/-- `estimateTravelTime`: non-finite distance gives the display cap; otherwise
cap the distance, divide by the speed tier, convert to minutes, round to one
decimal and cap at `MAX_DISPLAY_TIME`. -/
def estimateTravelTime (distanceKm : Option ℚ) (isUrban : Bool) : ℚ :=
  match distanceKm with
  | none => MAX_DISPLAY_TIME
  | some d =>
    let cappedDistance := min d MAX_DISPLAY_DISTANCE
    let speed := if isUrban then TRAVEL_SPEEDS_urban else TRAVEL_SPEEDS_rural
    min (round1 (cappedDistance / speed * 60)) MAX_DISPLAY_TIME

/-! ## SpatialGrid

The JS class keeps a `Map` from `"cellLat,cellLng"` keys to arrays of node
indices.  The key is modelled as the pair of floors; the map as an
association list in first-insertion order with `push`-ordered cells. -/

abbrev CellKey := ℤ × ℤ

def getCellKey (lat lng : ℚ) : CellKey := (⌊lat / GRID_CELL_SIZE⌋, ⌊lng / GRID_CELL_SIZE⌋)

abbrev SpatialGrid := List (CellKey × List ℕ)

/-- `cell.push(i)` into the map entry for `k` (creating it if absent). -/
def gridAdd (g : SpatialGrid) (k : CellKey) (i : ℕ) : SpatialGrid :=
  match g with
  | [] => [(k, [i])]
  | (k', cell) :: rest =>
    if k' = k then (k', cell ++ [i]) :: rest else (k', cell) :: gridAdd rest k i

/-- The constructor loop: insert every node index keyed by its cell. -/
def buildGrid (nodes : List OptimizationNode) : SpatialGrid :=
  (List.range nodes.length).foldl
    (fun g i =>
      let node := nodes.getD i default
      gridAdd g (getCellKey node.lat node.lng) i)
    []

/-- Offsets `-radius .. radius` in loop order. -/
def cellOffsets (radiusCells : ℕ) : List ℤ :=
  (List.range (2 * radiusCells + 1)).map (fun k => (k : ℤ) - (radiusCells : ℤ))

/-- `getNearbyIndices`: concatenate the cells of the
`(2·radius+1)²` block around the query point, in `dLat`-major order. -/
def getNearbyIndices (g : SpatialGrid) (lat lng : ℚ) (radiusCells : ℕ) : List ℕ :=
  let centerCellLat := ⌊lat / GRID_CELL_SIZE⌋
  let centerCellLng := ⌊lng / GRID_CELL_SIZE⌋
  (cellOffsets radiusCells).flatMap (fun dLat =>
    (cellOffsets radiusCells).flatMap (fun dLng =>
      ((g.lookup (centerCellLat + dLat, centerCellLng + dLng)).getD [])))

/-! ## buildNetworkGraph -/

/-- The node built for a facility with valid coordinates (the `continue`
branch of the node-building loop returns `none`). -/
def protoNode (facility : CleanedFacility) : Option OptimizationNode :=
  if facility.validCoordinates then
    match facility.coordinates with
    | some c =>
      some { facilityId := facility.id
             name := facility.name
             lat := c.lat
             lng := c.lng
             region := jsOrString (facility.address.bind (·.stateOrRegion)) "Unknown"
             capabilities := facility.capabilities
             qualityScore := facility.dataQualityScore.getD 50
             responseTimeMinutes := 0
             nearestFacilityDistance := none
             nearestFacilityName := "None" }
    | none => none
  else none

/-- Canonical unordered edge key `i < j ? "i-j" : "j-i"`. -/
def edgeKey (i j : ℕ) : ℕ × ℕ := if i < j then (i, j) else (j, i)

/-- State of the per-node scan: the running nearest-neighbour accumulator
(`minDist = none` models the initial `Infinity`) and the global edge
list/edge set. -/
structure ScanState where
  minDist : Option ℚ
  nearestName : String
  nearestId : String
  edges : List NetworkEdge
  edgeSet : List (ℕ × ℕ)

/-- One iteration of the candidate loop for node `i` against candidate `j`:
track the nearest and create a deduplicated edge when within threshold. -/
def scanStep (dist : ℚ → ℚ → ℚ → ℚ → ℚ) (nodes : List OptimizationNode) (i : ℕ)
    (st : ScanState) (j : ℕ) : ScanState :=
  if i = j then st else
  let node := nodes.getD i default
  let other := nodes.getD j default
  let distance := dist node.lat node.lng other.lat other.lng
  let st1 :=
    if ltOpt distance st.minDist then
      { st with minDist := some distance, nearestName := other.name,
                nearestId := other.facilityId }
    else st
  if distance ≤ MAX_EDGE_DISTANCE then
    if edgeKey i j ∈ st1.edgeSet then st1
    else
      let travelTime := estimateTravelTime (some distance) (distance < 20)
      let qualityBonus := (other.qualityScore - node.qualityScore) / 100
      { st1 with
        edgeSet := st1.edgeSet ++ [edgeKey i j]
        edges := st1.edges ++
          [{ fromId := node.facilityId
             toId := other.facilityId
             fromName := node.name
             toName := other.name
             distance := formatDistance (some distance)
             travelTime := travelTime
             weight := travelTime * (1 - qualityBonus * 0.2) }] }
  else st1

/-- The fallback exhaustive scan (nearest only, no edges). -/
def fallbackStep (dist : ℚ → ℚ → ℚ → ℚ → ℚ) (nodes : List OptimizationNode) (i : ℕ)
    (st : ScanState) (j : ℕ) : ScanState :=
  if i = j then st else
  let node := nodes.getD i default
  let other := nodes.getD j default
  let distance := dist node.lat node.lng other.lat other.lng
  if ltOpt distance st.minDist then
    { st with minDist := some distance, nearestName := other.name,
              nearestId := other.facilityId }
  else st

/-- Accumulator of the main per-node loop. -/
structure GraphAcc where
  edges : List NetworkEdge
  edgeSet : List (ℕ × ℕ)
  nodesOut : List OptimizationNode
  distanceMatrix : List FacilityDistance

/-- The candidate scan for node `i`: spatial-grid scan, then the exhaustive
fallback when nothing was found. -/
def scanNode (dist : ℚ → ℚ → ℚ → ℚ → ℚ) (nodes : List OptimizationNode)
    (grid : SpatialGrid) (i : ℕ) (st0 : ScanState) : ScanState :=
  let node := nodes.getD i default
  let nearbyIndices := getNearbyIndices grid node.lat node.lng 4
  let st1 := nearbyIndices.foldl (scanStep dist nodes i) st0
  if st1.minDist = none ∧ 1 < nodes.length then
    (List.range nodes.length).foldl (fallbackStep dist nodes i) st1
  else st1

/-- Node `i` with its nearest-facility fields written after the scan. -/
def processedNodeOf (nodes : List OptimizationNode) (i : ℕ) (st2 : ScanState) :
    OptimizationNode :=
  { nodes.getD i default with
      nearestFacilityDistance := some (formatDistance st2.minDist)
      nearestFacilityName := st2.nearestName }

/-- The distance-matrix row for node `i` (when a nearest facility exists). -/
def matrixRowsOf (nodes : List OptimizationNode) (i : ℕ) (st2 : ScanState) :
    List FacilityDistance :=
  let node := nodes.getD i default
  if st2.nearestId ≠ "" then
    [{ facilityId := node.facilityId
       facilityName := node.name
       nearestFacilityId := st2.nearestId
       nearestFacilityName := st2.nearestName
       distanceKm := formatDistance st2.minDist
       travelTimeMinutes := estimateTravelTime st2.minDist false : FacilityDistance }]
  else []

/-- Body of the main loop of `buildNetworkGraph` for node `i`: spatial-grid
scan, exhaustive fallback when nothing was found, then write the node's
nearest-facility fields and (when a nearest exists) a distance-matrix row. -/
def processNode (dist : ℚ → ℚ → ℚ → ℚ → ℚ) (nodes : List OptimizationNode)
    (grid : SpatialGrid) (acc : GraphAcc) (i : ℕ) : GraphAcc :=
  let st0 : ScanState :=
    { minDist := none, nearestName := "None", nearestId := "",
      edges := acc.edges, edgeSet := acc.edgeSet }
  let st2 := scanNode dist nodes grid i st0
  { edges := st2.edges, edgeSet := st2.edgeSet,
    nodesOut := acc.nodesOut ++ [processedNodeOf nodes i st2],
    distanceMatrix := acc.distanceMatrix ++ matrixRowsOf nodes i st2 }

/-- `buildNetworkGraph`: nodes, edges and the flat distance matrix. -/
def buildNetworkGraph (dist : ℚ → ℚ → ℚ → ℚ → ℚ) (facilities : List CleanedFacility) :
    List OptimizationNode × List NetworkEdge × List FacilityDistance :=
  let nodes := facilities.filterMap protoNode
  if nodes.length = 0 then ([], [], [])
  else
    let spatialGrid := buildGrid nodes
    let acc := (List.range nodes.length).foldl
      (processNode dist nodes spatialGrid)
      { edges := [], edgeSet := [], nodesOut := [], distanceMatrix := [] }
    (acc.nodesOut, acc.edges, acc.distanceMatrix)

/-! ## identifyHubFacilities -/

/-- Bump a string-keyed counter map (`(m.get(k) || 0) + 1`). -/
def bumpCount (m : List (String × ℕ)) (k : String) : List (String × ℕ) :=
  match m with
  | [] => [(k, 1)]
  | (k', v) :: rest =>
    if k' = k then (k', v + 1) :: rest else (k', v) :: bumpCount rest k

/-- `identifyHubFacilities`: raw edge-endpoint counts times quality, sorted
descending (stable), top `topN` ids. -/
def identifyHubFacilities (nodes : List OptimizationNode) (edges : List NetworkEdge)
    (topN : ℕ) : List String :=
  let connectivity := edges.foldl (fun m e => bumpCount (bumpCount m e.fromId) e.toId) []
  ((List.insertionSort (fun a b => b.2 ≤ a.2)
    (nodes.map (fun node =>
      (node.facilityId,
       (jsOrNat (connectivity.lookup node.facilityId) 1 : ℚ) * (node.qualityScore / 100))))).take
    topN).map (·.1)

/-! ## detectCoverageGaps -/

/-- Append a node to a region-keyed map entry (insertion-ordered `Map`). -/
def regionAdd (m : List (String × List OptimizationNode)) (k : String)
    (node : OptimizationNode) : List (String × List OptimizationNode) :=
  match m with
  | [] => [(k, [node])]
  | (k', l) :: rest =>
    if k' = k then (k', l ++ [node]) :: rest else (k', l) :: regionAdd rest k node

/-- Group nodes by their `region` field, preserving discovery order. -/
def regionNodeMapOf (nodes : List OptimizationNode) :
    List (String × List OptimizationNode) :=
  nodes.foldl (fun m node => regionAdd m node.region node) []

/-- The static Ghana gazetteer of `getRegionCentroid`, in source order. -/
def regionCentroids : List (String × Coordinates) :=
  [("Greater Accra", { lat := 5.6037, lng := -0.1870 }),
   ("Ashanti", { lat := 6.6885, lng := -1.6244 }),
   ("Western", { lat := 5.0527, lng := -2.2565 }),
   ("Eastern", { lat := 6.3333, lng := -0.5000 }),
   ("Central", { lat := 5.5000, lng := -1.0000 }),
   ("Northern", { lat := 9.5000, lng := -1.0000 }),
   ("Upper East", { lat := 10.7833, lng := -0.8167 }),
   ("Upper West", { lat := 10.2500, lng := -2.0833 }),
   ("Volta", { lat := 6.5781, lng := 0.4502 }),
   ("Brong Ahafo", { lat := 7.9500, lng := -1.6750 }),
   ("Bono", { lat := 7.5000, lng := -2.5000 }),
   ("Bono East", { lat := 7.7500, lng := -1.0000 }),
   ("Ahafo", { lat := 7.0000, lng := -2.5000 }),
   ("Savannah", { lat := 9.0000, lng := -1.5000 }),
   ("North East", { lat := 10.5000, lng := -0.2500 }),
   ("Oti", { lat := 7.5000, lng := 0.3000 }),
   ("Western North", { lat := 6.0000, lng := -2.5000 })]

/-- `getRegionCentroid`: exact key match, then bidirectional-substring
partial match in entry order, else the Ghana-centre default. -/
def getRegionCentroid (regionName : String) : Coordinates :=
  let normalizedName := jsTrim regionName
  match regionCentroids.lookup normalizedName with
  | some coords => coords
  | none =>
    let nameLower := jsToLower normalizedName
    match regionCentroids.find? (fun kv =>
        jsIncludes (jsToLower kv.1) nameLower || jsIncludes nameLower (jsToLower kv.1)) with
    | some kv => kv.2
    | none => { lat := 7.9465, lng := -1.0232 }

/-- Facility nodes matched to a region summary: exact region-label match,
else the concatenation of every map entry matching by case-insensitive
bidirectional substring containment. -/
def regionFacilitiesOf (regionNodeMap : List (String × List OptimizationNode))
    (regionName : String) : List OptimizationNode :=
  let exact := (regionNodeMap.lookup regionName).getD []
  if exact.length = 0 then
    let regionLower := jsToLower regionName
    regionNodeMap.flatMap (fun kv =>
      if jsIncludes (jsToLower kv.1) regionLower || jsIncludes regionLower (jsToLower kv.1)
      then kv.2 else [])
  else exact

/-- Nearest node distance from a point (`none` = `Infinity` when there are
no nodes), the loop of the no-matching-facility branch. -/
def nearestNodeDistance (dist : ℚ → ℚ → ℚ → ℚ → ℚ) (centroid : Coordinates)
    (nodes : List OptimizationNode) : Option ℚ :=
  nodes.foldl
    (fun acc node =>
      let d := dist centroid.lat centroid.lng node.lat node.lng
      if ltOpt d acc then some d else acc)
    none

/-- The per-region distance/time/centroid computation of
`detectCoverageGaps` (both branches of the region loop body). -/
def gapAvgFor (dist : ℚ → ℚ → ℚ → ℚ → ℚ) (nodes : List OptimizationNode)
    (regionNodeMap : List (String × List OptimizationNode)) (region : RegionStats) :
    ℚ × ℚ × Coordinates :=
  let regionFacilities := regionFacilitiesOf regionNodeMap region.name
  if regionFacilities.length = 0 then
    let centroid := getRegionCentroid region.name
    let nearestDist := nearestNodeDistance dist centroid nodes
    let avgDistance : ℚ := match nearestDist with
      | none => 100
      | some d => d
    (avgDistance, estimateTravelTime (some avgDistance) false, centroid)
  else
    let validTotals := regionFacilities.foldl
      (fun (acc : ℚ × ℕ) facility =>
        match facility.nearestFacilityDistance with
        | some d => if d > 0 then (acc.1 + d, acc.2 + 1) else acc
        | none => acc)
      (0, 0)
    let avgDistance : ℚ := if validTotals.2 > 0 then validTotals.1 / validTotals.2 else 0
    let centroid : Coordinates :=
      { lat := (regionFacilities.foldl (fun s f => s + f.lat) 0) / regionFacilities.length,
        lng := (regionFacilities.foldl (fun s f => s + f.lng) 0) / regionFacilities.length }
    (avgDistance, estimateTravelTime (some avgDistance) (avgDistance < 20), centroid)

/-- The per-region body of `detectCoverageGaps`: the emitted gap, if any. -/
def gapForRegion (dist : ℚ → ℚ → ℚ → ℚ → ℚ) (nodes : List OptimizationNode)
    (regionNodeMap : List (String × List OptimizationNode)) (region : RegionStats) :
    List CoverageGap :=
  let adc := gapAvgFor dist nodes regionNodeMap region
  let avgDistance := adc.1
  let avgTime := adc.2.1
  let centroid := adc.2.2
  if avgTime > WHO_ACCESS_THRESHOLD then
    [{ regionName := region.name
       centroid := centroid
       nearestFacilityDistance := round1 avgDistance
       nearestFacilityTime := round1 avgTime
       populationEstimate := (jsOrNat (some region.totalFacilities) 1 : ℚ) * 30000 + 50000
       urgencyScore := min (avgTime / WHO_ACCESS_THRESHOLD) 1
       recommendedAction :=
         if avgTime > 180 then "Deploy mobile health unit immediately"
         else if avgTime > 120 then "Establish permanent facility within 2 years"
         else "Enhance existing facility capabilities" }]
  else []

/-- The gap list before the final urgency sort. -/
def detectCoverageGapsRaw (dist : ℚ → ℚ → ℚ → ℚ → ℚ) (nodes : List OptimizationNode)
    (regionStats : List RegionStats) : List CoverageGap :=
  let regionNodeMap := regionNodeMapOf nodes
  regionStats.flatMap (gapForRegion dist nodes regionNodeMap)

/-- `detectCoverageGaps`: gaps sorted by descending urgency (stable). -/
def detectCoverageGaps (dist : ℚ → ℚ → ℚ → ℚ → ℚ) (nodes : List OptimizationNode)
    (regionStats : List RegionStats) : List CoverageGap :=
  List.insertionSort (fun a b => b.urgencyScore ≤ a.urgencyScore)
    (detectCoverageGapsRaw dist nodes regionStats)

/-! ## generateCriticalInsights -/

/-- Insertion-ordered string set (`Set<string>`). -/
def setAdd (s : List String) (v : String) : List String :=
  if v ∈ s then s else s ++ [v]

/-- `connectionCounts.set(k, new Set())` when the key is absent. -/
def ensureKey (m : List (String × List String)) (k : String) :
    List (String × List String) :=
  if (m.lookup k).isSome then m else m ++ [(k, [])]

/-- `connectionCounts.get(k)!.add(v)`. -/
def connAdd (m : List (String × List String)) (k v : String) :
    List (String × List String) :=
  m.map (fun kv => if kv.1 = k then (kv.1, setAdd kv.2 v) else kv)

/-- Unique-neighbour sets per facility id, from the edge list. -/
def connectionCountsOf (edges : List NetworkEdge) : List (String × List String) :=
  edges.foldl
    (fun m e => connAdd (connAdd (ensureKey (ensureKey m e.fromId) e.toId) e.fromId e.toId)
      e.toId e.fromId)
    []

/-- `connectionCounts.get(id)?.size || 0`. -/
def uniqueConnectionsOf (m : List (String × List String)) (id : String) : ℕ :=
  match m.lookup id with
  | some s => s.length
  | none => 0

/-- An entry of the `hubScores` array. -/
structure HubScore where
  node : OptimizationNode
  uniqueConnections : ℕ
  hubScore : ℚ
  nearestDist : ℚ
deriving DecidableEq

/-- The hub-scoring map of `generateCriticalInsights`: the accessibility
factor is `max(1, 100 − nearestDist) / 100`, and the score is
`uniqueConnections·0.4 + quality·0.4 + accessibilityFactor·20`. -/
def hubScoresOf (nodes : List OptimizationNode) (edges : List NetworkEdge) :
    List HubScore :=
  let connectionCounts := connectionCountsOf edges
  nodes.map (fun node =>
    let uniqueConnections := uniqueConnectionsOf connectionCounts node.facilityId
    let nearestDist : ℚ := match node.nearestFacilityDistance with
      | some d => d
      | none => 100
    let accessibilityFactor := max 1 (100 - nearestDist) / 100
    { node := node
      uniqueConnections := uniqueConnections
      hubScore := (uniqueConnections : ℚ) * 0.4 + node.qualityScore * 0.4 +
        accessibilityFactor * 20
      nearestDist := nearestDist })

/-- `hubScores.sort((a, b) => b.hubScore - a.hubScore)` (stable, descending). -/
def sortedHubsOf (nodes : List OptimizationNode) (edges : List NetworkEdge) :
    List HubScore :=
  List.insertionSort (fun a b => b.hubScore ≤ a.hubScore) (hubScoresOf nodes edges)

/-- The diversity-constrained selection loop: stop at 5 hubs; while fewer
than 3 are selected, skip candidates whose region is already used. -/
def selectHubsGo : List HubScore → List HubScore → List String → List HubScore
  | [], selectedHubs, _ => selectedHubs
  | hub :: rest, selectedHubs, usedRegions =>
    if 5 ≤ selectedHubs.length then selectedHubs
    else if selectedHubs.length < 3 ∧ hub.node.region ∈ usedRegions then
      selectHubsGo rest selectedHubs usedRegions
    else
      selectHubsGo rest (selectedHubs ++ [hub]) (setAdd usedRegions hub.node.region)

/-- The selected hubs (at most 5, region-diverse in the first 3). -/
def selectedHubsOf (nodes : List OptimizationNode) (edges : List NetworkEdge) :
    List HubScore :=
  selectHubsGo (sortedHubsOf nodes edges) [] []

/-- Stand-in for JS number stringification inside template literals; the
exact text is irrelevant to every claim. -/
def qStr (q : ℚ) : String := toString q.num ++ "#" ++ toString q.den

/-- `node.nearestFacilityDistance > x`, where a `none` field models
`Infinity` (so the comparison is true). -/
def nfdGt (node : OptimizationNode) (x : ℚ) : Bool :=
  match node.nearestFacilityDistance with
  | some d => decide (d > x)
  | none => true

/-- The filter applied to gaps before recommending new facilities. -/
def recommendGapFilter (gap : CoverageGap) : Bool :=
  decide (gap.urgencyScore ≥ 0.5) && decide (gap.nearestFacilityTime > WHO_ACCESS_THRESHOLD)

/-- Nearest existing facility to a gap centroid (fresh full scan). -/
def nearestFacilityTo (dist : ℚ → ℚ → ℚ → ℚ → ℚ) (nodes : List OptimizationNode)
    (centroid : Coordinates) : Option ℚ × String :=
  nodes.foldl
    (fun acc node =>
      let d := dist centroid.lat centroid.lng node.lat node.lng
      if ltOpt d acc.1 then (some d, node.name) else acc)
    (none, "Nearest Regional Facility")

/-- The bottleneck loop (capped at 5 results). -/
def bottlenecksGo (connectionCounts : List (String × List String)) :
    List OptimizationNode → List NetworkBottleneck → List NetworkBottleneck
  | [], acc => acc
  | node :: rest, acc =>
    if 5 ≤ acc.length then acc
    else
      let connectionCount := uniqueConnectionsOf connectionCounts node.facilityId
      if connectionCount ≤ 1 ∧ nfdGt node 50 then
        bottlenecksGo connectionCounts rest (acc ++
          [{ location := node.name
             issue := "Isolated facility with " ++ toString connectionCount ++
               " connection(s). Nearest: " ++
               (match node.nearestFacilityDistance with
                | some d => qStr d
                | none => "Infinity") ++ "km"
             severity := if nfdGt node 100 then PriorityLevel.critical else PriorityLevel.high
             recommendation := "Establish intermediate health post or improve road access" }])
      else bottlenecksGo connectionCounts rest acc

/-- WHO compliance score: percentage of nodes within the access standard. -/
def whoComplianceScoreOf (nodes : List OptimizationNode) : ℤ :=
  let withinWHO :=
    (nodes.filter (fun n => decide (n.responseTimeMinutes ≤ WHO_ACCESS_THRESHOLD))).length
  if nodes.length > 0 then jsRound ((withinWHO : ℚ) / (nodes.length : ℚ) * 100) else 0

/-- Letter grade from the compliance score. -/
def accessibilityGradeOf (whoComplianceScore : ℤ) : AccessGrade :=
  if whoComplianceScore ≥ 90 then AccessGrade.A
  else if whoComplianceScore ≥ 75 then AccessGrade.B
  else if whoComplianceScore ≥ 60 then AccessGrade.C
  else if whoComplianceScore ≥ 40 then AccessGrade.D
  else AccessGrade.F

/-- One entry of `optimalHubLocations` (index `p.1`, hub `p.2`). -/
def optimalLocationOf (p : ℕ × HubScore) : OptimalLocation :=
  let index := p.1
  let item := p.2
  let coverageRadius := jsRound (item.nearestDist * 0.6 + 2)
  let populationBase := 50000 + item.node.qualityScore * 500
  let connectionBonus := (item.uniqueConnections : ℚ) * 8000
  let regionBonus : ℚ :=
    if jsIncludes (jsToLower item.node.region) "accra" then 100000
    else if jsIncludes (jsToLower item.node.region) "ashanti" then 80000
    else 30000
  { name := item.node.name
    coordinates := { lat := item.node.lat, lng := item.node.lng }
    currentCoverageRadius := coverageRadius
    populationServed := jsRound (populationBase + connectionBonus + regionBonus)
    rank := index + 1
    reason :=
      if index = 0 then
        "Best network position: " ++ toString item.uniqueConnections ++
          " direct links, quality " ++ qStr item.node.qualityScore ++ "/100, " ++
          item.node.region
      else
        item.node.region ++ ": " ++ toString item.uniqueConnections ++
          " connections, quality " ++ qStr item.node.qualityScore ++ ", coverage " ++
          toString coverageRadius ++ "km" }

/-- The ranked hub locations of `generateCriticalInsights`. -/
def optimalHubLocationsOf (nodes : List OptimizationNode) (edges : List NetworkEdge) :
    List OptimalLocation :=
  (selectedHubsOf nodes edges).enum.map optimalLocationOf

/-- One recommended facility for a coverage gap. -/
def recommendedFacilityOf (dist : ℚ → ℚ → ℚ → ℚ → ℚ) (nodes : List OptimizationNode)
    (gap : CoverageGap) : RecommendedFacility :=
  let priority : PriorityLevel :=
    if gap.urgencyScore ≥ 0.9 then PriorityLevel.critical
    else if gap.urgencyScore ≥ 0.7 then PriorityLevel.high
    else PriorityLevel.medium
  let facilityType : FacilityKind :=
    if gap.populationEstimate > 100000 then FacilityKind.hospital
    else if gap.populationEstimate > 30000 then FacilityKind.clinic
    else FacilityKind.health_center
  let nearest := nearestFacilityTo dist nodes gap.centroid
  { suggestedLocation := gap.centroid
    facilityType := facilityType
    priority := priority
    estimatedPopulationServed := gap.populationEstimate
    nearestExistingFacility := nearest.2
    distanceFromNearest := nearest.1.map round1
    justification := gap.regionName ++ ": " ++ toString (jsRound gap.nearestFacilityTime) ++
      " min access time exceeds WHO 90-min standard. " ++ gap.recommendedAction }

/-- Gaps filtered, capped at 5, mapped to recommendations. -/
def recommendedNewFacilitiesOf (dist : ℚ → ℚ → ℚ → ℚ → ℚ)
    (nodes : List OptimizationNode) (coverageGaps : List CoverageGap) :
    List RecommendedFacility :=
  ((coverageGaps.filter recommendGapFilter).take 5).map (recommendedFacilityOf dist nodes)

/-- One underserved population centre per coverage gap. -/
def populationCenterOf (gap : CoverageGap) : PopulationCenter :=
  { name := gap.regionName
    coordinates := gap.centroid
    estimatedPopulation := gap.populationEstimate
    nearestFacilityDistance := formatDistance (some gap.nearestFacilityDistance)
    nearestFacilityName := "Nearest Regional Facility"
    accessTimeMinutes := min gap.nearestFacilityTime 2880
    meetsWHOStandard := decide (gap.nearestFacilityTime ≤ WHO_ACCESS_THRESHOLD) }

/-- Bottleneck list: per-node isolation findings plus an optional
network-wide note when the average inter-facility distance is high. -/
def networkBottlenecksOf (nodes : List OptimizationNode) (edges : List NetworkEdge)
    (metrics : OptimizationMetrics) : List NetworkBottleneck :=
  let bottlenecks0 := bottlenecksGo (connectionCountsOf edges) nodes []
  if bottlenecks0.length < 5 ∧ metrics.avgInterFacilityDistance > 80 then
    bottlenecks0 ++
      [{ location := "Network-wide"
         issue := "Average inter-facility distance (" ++
           toString metrics.avgInterFacilityDistance ++ "km) exceeds optimal range"
         severity := if metrics.avgInterFacilityDistance > 150 then PriorityLevel.critical
           else PriorityLevel.medium
         recommendation := "Prioritize mobile health units for remote areas" }]
  else bottlenecks0

/-- `generateCriticalInsights`. -/
def generateCriticalInsights (dist : ℚ → ℚ → ℚ → ℚ → ℚ)
    (nodes : List OptimizationNode) (edges : List NetworkEdge)
    (coverageGaps : List CoverageGap) (metrics : OptimizationMetrics) :
    CriticalInsights :=
  { optimalHubLocations := optimalHubLocationsOf nodes edges
    recommendedNewFacilities := recommendedNewFacilitiesOf dist nodes coverageGaps
    underservedPopulationCenters := coverageGaps.map populationCenterOf
    networkBottlenecks := networkBottlenecksOf nodes edges metrics
    whoComplianceScore := whoComplianceScoreOf nodes
    accessibilityGrade := accessibilityGradeOf (whoComplianceScoreOf nodes) }

/-! ## calculateStatistics -/

/-- The closed-form normal-CDF approximation (`normalCDF`); `e` models
`Math.exp`. -/
def normalCDF (e : ℚ → ℚ) (x : ℚ) : ℚ :=
  let a1 : ℚ := 0.254829592
  let a2 : ℚ := -0.284496736
  let a3 : ℚ := 1.421413741
  let a4 : ℚ := -1.453152027
  let a5 : ℚ := 1.061405429
  let p : ℚ := 0.3275911
  let sign : ℚ := if x < 0 then -1 else 1
  let x1 := |x| * 0.7071067811865476
  let t := 1 / (1 + p * x1)
  let y := 1 - (((((a5 * t + a4) * t) + a3) * t + a2) * t + a1) * t * e (-(x1 * x1))
  0.5 * (1 + sign * y)

/-- `calculateStatistics`; `sq` models `Math.sqrt`, `e` models `Math.exp`.
Note: for `n = 1` the source's `varianceSum / (n - 1)` is `0/0 = NaN` in JS,
while `ℚ` division by zero yields `0`; every verified property about this
function is restricted to samples with `2 ≤ n`, where the two agree. -/
def calculateStatistics (sq e : ℚ → ℚ) (responseTimes : List ℚ) :
    StatisticalAnalysis :=
  let n := responseTimes.length
  if n = 0 then
    { pValue := 1
      confidenceInterval := (0, 0)
      effectSize := 0
      sampleSize := 0
      standardError := 0
      significanceLevel := Significance.not_significant }
  else
    let sum : ℚ := responseTimes.foldl (· + ·) 0
    let mean : ℚ := sum / (n : ℚ)
    let varianceSum : ℚ :=
      responseTimes.foldl (fun acc t => acc + (t - mean) * (t - mean)) (0 : ℚ)
    let variance := varianceSum / ((n : ℚ) - 1)
    let stdDev := sq variance
    let standardError := stdDev / sq n
    let zScore : ℚ := 1.96
    let confidenceInterval : ℚ × ℚ :=
      (max 0 (mean - zScore * standardError), mean + zScore * standardError)
    let effectSize := if stdDev > 0 then (WHO_ACCESS_THRESHOLD - mean) / stdDev else 0
    let tStatistic := if standardError > 0 then (mean - WHO_ACCESS_THRESHOLD) / standardError else 0
    let pValue : ℚ :=
      if n > 30 then max 0.0001 (min 1 (2 * (1 - normalCDF e |tStatistic|)))
      else 0.05
    { pValue := pValue
      confidenceInterval := confidenceInterval
      effectSize := round2 effectSize
      sampleSize := n
      standardError := round2 standardError
      significanceLevel :=
        if pValue < 0.01 then Significance.significant
        else if pValue < 0.05 then Significance.marginal
        else Significance.not_significant }

/-! ## optimizeNetwork -/

/-- Append an edge index to a node's entry of the `nodeEdgeMap`. -/
def edgeIdxAdd (m : List (String × List ℕ)) (k : String) (i : ℕ) :
    List (String × List ℕ) :=
  match m with
  | [] => [(k, [i])]
  | (k', l) :: rest =>
    if k' = k then (k', l ++ [i]) :: rest else (k', l) :: edgeIdxAdd rest k i

/-- Pre-index edges by node id (`nodeEdgeMap`). -/
def nodeEdgeMapOf (edges : List NetworkEdge) : List (String × List ℕ) :=
  edges.enum.foldl (fun m p => edgeIdxAdd (edgeIdxAdd m p.2.fromId p.1) p.2.toId p.1) []

/-- Minimum of a list against an `Infinity` start (`none` when empty). -/
def jsMinFold (ts : List ℚ) : Option ℚ :=
  ts.foldl (fun m t => if ltOpt t m then some t else m) none

/-- Per-node response time: minimum incident edge travel time if the node
has edges, else the nearest-distance fallback converted to time.  (The
`getD 0` default is unreachable: `jsMinFold` of a nonempty list is `some`.) -/
def respOf (edges : List NetworkEdge) (m : List (String × List ℕ))
    (node : OptimizationNode) : ℚ :=
  match m.lookup node.facilityId with
  | some idxs =>
    if 0 < idxs.length then
      (jsMinFold (idxs.map (fun idx => (edges.getD idx default).travelTime))).getD 0
    else estimateTravelTime node.nearestFacilityDistance false
  | none => estimateTravelTime node.nearestFacilityDistance false

/-- The response-time sample, in node order. -/
def responseTimesOf (nodes : List OptimizationNode) (edges : List NetworkEdge) :
    List ℚ :=
  nodes.map (respOf edges (nodeEdgeMapOf edges))

/-- Nodes with `responseTimeMinutes` written (the in-place mutation of the
response-time loop). -/
def updatedNodesOf (nodes : List OptimizationNode) (edges : List NetworkEdge) :
    List OptimizationNode :=
  nodes.map (fun node => { node with responseTimeMinutes := respOf edges (nodeEdgeMapOf edges) node })

/-- `Math.max(...l)` over a nonempty list (callers guard emptiness). -/
def listMaxOf (l : List ℚ) : ℚ :=
  match l with
  | [] => 0
  | h :: t => t.foldl max h

/-- `Math.min(...l)` over a nonempty list (callers guard emptiness). -/
def listMinOf (l : List ℚ) : ℚ :=
  match l with
  | [] => 0
  | h :: t => t.foldl min h

/-- The metrics block of `optimizeNetwork` (computed from the response-time
sample, node/edge counts, the distance matrix and the gap count). -/
def metricsOf (responseTimes : List ℚ) (nodesLen edgesLen : ℕ)
    (distanceMatrix : List FacilityDistance) (gapCount : ℕ) : OptimizationMetrics :=
  let sortedTimes := List.insertionSort (fun a b : ℚ => a ≤ b) responseTimes
  let n := responseTimes.length
  let sum := responseTimes.foldl (· + ·) 0
  let withinThreshold := responseTimes.countP (fun t => decide (t ≤ WHO_ACCESS_THRESHOLD))
  let averageResponseTime : ℚ := if n > 0 then sum / n else 0
  let medianResponseTime : ℚ := sortedTimes.getD (n / 2) 0
  let p95ResponseTime : ℚ := sortedTimes.getD (⌊(n : ℚ) * 0.95⌋).toNat 0
  let coveragePercentage : ℚ := if n > 0 then (withinThreshold : ℚ) / n * 100 else 0
  let maxEdges : ℚ := (nodesLen : ℚ) * ((nodesLen : ℚ) - 1) / 2
  let networkEfficiency : ℚ := if maxEdges > 0 then (edgesLen : ℚ) / maxEdges * 100 else 0
  let distances := (distanceMatrix.map (·.distanceKm)).filter
    (fun d => decide (d < MAX_DISPLAY_DISTANCE))
  let timeScore := max 0 (100 - averageResponseTime)
  let equityScore : ℚ := 100 - (gapCount : ℚ) * 10
  { averageResponseTime := round1 averageResponseTime
    medianResponseTime := round1 medianResponseTime
    p95ResponseTime := round1 p95ResponseTime
    coveragePercentage := round1 coveragePercentage
    networkEfficiency := round1 networkEfficiency
    paretoScore := jsRound (coveragePercentage * 0.4 + timeScore * 0.4 + equityScore * 0.2)
    totalFacilities := nodesLen
    avgInterFacilityDistance :=
      if 0 < distances.length then jsRound ((distances.foldl (· + ·) 0) / distances.length) else 0
    maxInterFacilityDistance := if 0 < distances.length then jsRound (listMaxOf distances) else 0
    minInterFacilityDistance := if 0 < distances.length then jsRound (listMinOf distances) else 0 }

/-- `optimizeNetwork`: the whole pipeline as one pure function.  `dist`
models `haversineDistance`, `sq` models `Math.sqrt`, `e` models `Math.exp`. -/
def optimizeNetwork (dist : ℚ → ℚ → ℚ → ℚ → ℚ) (sq e : ℚ → ℚ)
    (facilities : List CleanedFacility) (regionStats : List RegionStats) :
    OptimizationResult :=
  let bng := buildNetworkGraph dist facilities
  let nodes := bng.1
  let edges := bng.2.1
  let distanceMatrix := bng.2.2
  let hubFacilities := identifyHubFacilities nodes edges 5
  let responseTimes := responseTimesOf nodes edges
  let updatedNodes := updatedNodesOf nodes edges
  let coverageGaps := detectCoverageGaps dist updatedNodes regionStats
  let metrics := metricsOf responseTimes nodes.length edges.length distanceMatrix
    coverageGaps.length
  { nodes := updatedNodes
    edges := edges
    hubFacilities := hubFacilities
    coverageGaps := coverageGaps
    metrics := metrics
    statisticalAnalysis := calculateStatistics sq e responseTimes
    criticalInsights := generateCriticalInsights dist updatedNodes edges coverageGaps metrics
    facilityDistanceMatrix := distanceMatrix }

/-! ## Specification-side formulas (for refinement comparison)

These definitions follow the specification's words, to be compared against
the code-derived definitions above. -/

/-- The hub score as the specification words it: `0.4 × uniqueConnections +
0.4 × quality + 0.2 × accessibility` with `accessibility =
max(1, 100 − nearestFacilityDistance) / 100`. -/
def specHubScore (edges : List NetworkEdge) (node : OptimizationNode) : ℚ :=
  let uniqueConnections := uniqueConnectionsOf (connectionCountsOf edges) node.facilityId
  let nearestDist : ℚ := match node.nearestFacilityDistance with
    | some d => d
    | none => 100
  let accessibility := max 1 (100 - nearestDist) / 100
  0.4 * (uniqueConnections : ℚ) + 0.4 * node.qualityScore + 0.2 * accessibility

/-- Raw (pre-rounding) coverage percentage of a response-time sample. -/
def coverageRawOf (responseTimes : List ℚ) : ℚ :=
  if responseTimes.length > 0 then
    (responseTimes.countP (fun t => decide (t ≤ WHO_ACCESS_THRESHOLD)) : ℚ) /
      (responseTimes.length : ℚ) * 100
  else 0

/-- Raw (pre-rounding) mean of a response-time sample. -/
def avgResponseRawOf (responseTimes : List ℚ) : ℚ :=
  if responseTimes.length > 0 then
    (responseTimes.foldl (· + ·) 0) / (responseTimes.length : ℚ)
  else 0

/-! ## Concrete instances for witnesses and counterexamples

`distConst c` stands in for the haversine distance; any strictly positive
constant is realisable as a haversine value between suitable coordinate
pairs (the haversine on valid coordinates ranges over `[0, ~20015]` km). -/

def distConst (c : ℚ) : ℚ → ℚ → ℚ → ℚ → ℚ := fun _ _ _ _ => c

def facAlpha : CleanedFacility :=
  { id := "A", name := "Alpha", validCoordinates := true,
    coordinates := some { lat := 5, lng := 1 },
    address := some { stateOrRegion := some "RegA" },
    capabilities := [], dataQualityScore := some 50 }

def facBeta : CleanedFacility :=
  { id := "B", name := "Beta", validCoordinates := true,
    coordinates := some { lat := 5, lng := 1.2 },
    address := some { stateOrRegion := some "RegB" },
    capabilities := [], dataQualityScore := some 50 }

/-- A facility with data-quality score 0 (used for the C1 counterexample). -/
def facQzero : CleanedFacility :=
  { facAlpha with dataQualityScore := some 0 }

/-- A region summary whose name matches no facility region and no gazetteer
key (so the default country-centre centroid is used). -/
def regZq : RegionStats := { name := "Zq", totalFacilities := 2 }

/-- Eleven region summaries, none matching any facility region. -/
def regsEleven : List RegionStats :=
  (List.range 11).map (fun i => { name := "Zq" ++ toString i, totalFacilities := 1 })

/-- Three literal nodes in three distinct regions (C5 witness). -/
def nodeInRegion (id region : String) : OptimizationNode :=
  { facilityId := id, name := id, lat := 5, lng := 1, region := region,
    capabilities := [], qualityScore := 50, responseTimeMinutes := 0,
    nearestFacilityDistance := some 10, nearestFacilityName := "x" }

def nodesThreeRegions : List OptimizationNode :=
  [nodeInRegion "A" "R1", nodeInRegion "B" "R2", nodeInRegion "C" "R3",
   nodeInRegion "D" "R1"]

/-- Invariant carried by every generated edge: distance within the edge
threshold, capped travel time, and both fields derived from one raw
distance with the correct speed tier. -/
def GoodEdge (ed : NetworkEdge) : Prop :=
  ed.distance ≤ MAX_EDGE_DISTANCE ∧ ed.travelTime ≤ MAX_DISPLAY_TIME ∧
  ∃ d : ℚ, d ≤ MAX_EDGE_DISTANCE ∧ ed.distance = round1 d ∧
    ed.travelTime = round1 (d / (if d < 20 then TRAVEL_SPEEDS_urban else TRAVEL_SPEEDS_rural) * 60)

/-- Invariant carried by every built node: its nearest-facility distance is
finite and capped. -/
def NodeCapped (nd : OptimizationNode) : Prop :=
  ∀ q : ℚ, nd.nearestFacilityDistance = some q → q ≤ MAX_DISPLAY_DISTANCE

/-- Invariant of the graph-building fold. -/
def GraphInv (acc : GraphAcc) : Prop :=
  (∀ ed ∈ acc.edges, GoodEdge ed) ∧
  (∀ nd ∈ acc.nodesOut, NodeCapped nd) ∧
  (∀ m ∈ acc.distanceMatrix,
    m.distanceKm ≤ MAX_DISPLAY_DISTANCE ∧ m.travelTimeMinutes ≤ MAX_DISPLAY_TIME)

/-! # Theorems -/

attribute [local semireducible] Rat.add Rat.mul Rat.inv Rat.sub Rat.ofScientific


theorem foldl_preserve {σ α : Type _} (Inv : σ → Prop) (f : σ → α → σ) :
    ∀ (l : List α) (s : σ), (∀ s a, a ∈ l → Inv s → Inv (f s a)) → Inv s →
      Inv (l.foldl f s)
  | [], _, _, h => h
  | a :: t, s, hstep, h =>
    foldl_preserve Inv f t (f s a)
      (fun s' a' ha' => hstep s' a' (List.mem_cons_of_mem a ha'))
      (hstep s a (List.mem_cons_self a t) h)

theorem foldl_fixed {σ α : Type _} {f : σ → α → σ} :
    ∀ (l : List α) (s : σ), (∀ s a, a ∈ l → f s a = s) → l.foldl f s = s
  | [], _, _ => rfl
  | a :: t, s, hstep => by
    rw [List.foldl_cons, hstep s a (List.mem_cons_self a t)]
    exact foldl_fixed t s (fun s' a' ha' => hstep s' a' (List.mem_cons_of_mem a ha'))

theorem jsRound_le_int {q : ℚ} {c : ℤ} (h : q ≤ c) : jsRound q ≤ c := by
  have : q + 1/2 < (c : ℚ) + 1 := by linarith
  exact Int.lt_add_one_iff.mp (by exact_mod_cast Int.floor_lt.mpr (by push_cast; linarith))

theorem round1_le_int {q : ℚ} {c : ℤ} (h : q ≤ c) : round1 q ≤ c := by
  have h10 : jsRound (q * 10) ≤ 10 * c := jsRound_le_int (by push_cast; linarith)
  have : (jsRound (q * 10) : ℚ) ≤ ((10 * c : ℤ) : ℚ) := by exact_mod_cast h10
  unfold round1
  rw [div_le_iff (by norm_num : (0:ℚ) < 10)]
  push_cast at this ⊢
  linarith

theorem jsRound_intCast (k : ℤ) : jsRound (k : ℚ) = k := by
  unfold jsRound
  rw [add_comm, Int.floor_add_int]
  norm_num

theorem round1_tenth (k : ℤ) : round1 ((k : ℚ) / 10) = (k : ℚ) / 10 := by
  unfold round1
  rw [div_mul_cancel₀ (k : ℚ) (by norm_num : (10:ℚ) ≠ 0), jsRound_intCast]

theorem formatDistance_le_max (o : Option ℚ) : formatDistance o ≤ MAX_DISPLAY_DISTANCE := by
  match o with
  | none => exact le_refl _
  | some d =>
    show (if d > MAX_DISPLAY_DISTANCE then MAX_DISPLAY_DISTANCE else round1 d) ≤ _
    split
    · exact le_refl _
    · next h =>
      push_neg at h
      have : round1 d ≤ ((2400 : ℤ) : ℚ) :=
        round1_le_int (by exact_mod_cast h : d ≤ ((2400:ℤ) : ℚ))
      simpa [MAX_DISPLAY_DISTANCE] using this

theorem formatDistance_of_le {d : ℚ} (h : d ≤ MAX_DISPLAY_DISTANCE) :
    formatDistance (some d) = round1 d := by
  show (if d > MAX_DISPLAY_DISTANCE then MAX_DISPLAY_DISTANCE else round1 d) = _
  rw [if_neg (not_lt.mpr h)]

theorem estimateTravelTime_le_max (o : Option ℚ) (b : Bool) :
    estimateTravelTime o b ≤ MAX_DISPLAY_TIME := by
  match o with
  | none => exact le_refl _
  | some d => exact min_le_right _ _

theorem estimateTravelTime_tenth (o : Option ℚ) (b : Bool) :
    ∃ k : ℤ, estimateTravelTime o b = (k : ℚ) / 10 := by
  match o with
  | none => exact ⟨28800, by norm_num [estimateTravelTime, MAX_DISPLAY_TIME]⟩
  | some d =>
    have hshape : estimateTravelTime (some d) b =
        min (round1 (min d MAX_DISPLAY_DISTANCE /
          (if b then TRAVEL_SPEEDS_urban else TRAVEL_SPEEDS_rural) * 60)) MAX_DISPLAY_TIME := rfl
    set X := min d MAX_DISPLAY_DISTANCE /
      (if b then TRAVEL_SPEEDS_urban else TRAVEL_SPEEDS_rural) * 60 with hX
    rcases le_total (round1 X) MAX_DISPLAY_TIME with hc | hc
    · exact ⟨jsRound (X * 10), by rw [hshape, min_eq_left hc]; rfl⟩
    · exact ⟨28800, by rw [hshape, min_eq_right hc]; norm_num [MAX_DISPLAY_TIME]⟩

theorem round1_estimateTravelTime (o : Option ℚ) (b : Bool) :
    round1 (estimateTravelTime o b) = estimateTravelTime o b := by
  obtain ⟨k, hk⟩ := estimateTravelTime_tenth o b
  rw [hk, round1_tenth]

/-- **C9** — `optimizeNetwork` is deterministic: it is a pure function of
its inputs (the embedding is stateless, uses no randomness and no clock),
so deep-equal inputs give deep-equal results. -/
theorem optimizeNetwork_deterministic (dist : ℚ → ℚ → ℚ → ℚ → ℚ) (sq e : ℚ → ℚ)
    (f₁ f₂ : List CleanedFacility) (r₁ r₂ : List RegionStats)
    (hf : f₁ = f₂) (hr : r₁ = r₂) :
    optimizeNetwork dist sq e f₁ r₁ = optimizeNetwork dist sq e f₂ r₂ := by
  rw [hf, hr]

/-- Witness for **C9** at a concrete input pair. -/
theorem optimizeNetwork_deterministic_witness :
    optimizeNetwork (distConst 150) id id [facAlpha, facBeta] [regZq] =
      optimizeNetwork (distConst 150) id id [facAlpha, facBeta] [regZq] :=
  optimizeNetwork_deterministic (distConst 150) id id [facAlpha, facBeta]
    [facAlpha, facBeta] [regZq] [regZq] rfl rfl

theorem foldl_add_replicate (c : ℚ) :
    ∀ (n : ℕ) (a : ℚ), (List.replicate n c).foldl (· + ·) a = a + n * c
  | 0, a => by simp
  | n + 1, a => by
    rw [List.replicate_succ, List.foldl_cons, foldl_add_replicate c n (a + c)]
    push_cast
    ring

theorem foldl_sqdiff_replicate (c m : ℚ) :
    ∀ (n : ℕ) (a : ℚ),
      (List.replicate n c).foldl (fun acc t => acc + (t - m) * (t - m)) a =
        a + n * ((c - m) * (c - m))
  | 0, a => by simp
  | n + 1, a => by
    rw [List.replicate_succ, List.foldl_cons, foldl_sqdiff_replicate c m n _]
    push_cast
    ring

/-- **C8** — for a constant response-time sample (sample standard deviation
zero, length at least 2), `calculateStatistics` returns `standardError = 0`
and `effectSize = 0`; the only fact needed about the abstract square root is
`sqrt 0 = 0`.  (For `n = 1` the source itself computes `0/0`, which is why
the zero-standard-deviation reading requires `2 ≤ n`.) -/
theorem calculateStatistics_constant_sample (sq e : ℚ → ℚ) (hsq : sq 0 = 0)
    (c : ℚ) (n : ℕ) (hn : 2 ≤ n) :
    (calculateStatistics sq e (List.replicate n c)).standardError = 0 ∧
    (calculateStatistics sq e (List.replicate n c)).effectSize = 0 := by
  have hn0 : n ≠ 0 := by omega
  have hcast : (n : ℚ) ≠ 0 := Nat.cast_ne_zero.mpr hn0
  have hmean : ((0:ℚ) + (n:ℚ) * c) / (n:ℚ) = c := by field_simp
  simp only [calculateStatistics, List.length_replicate]
  rw [if_neg hn0]
  simp only [foldl_add_replicate, foldl_sqdiff_replicate, hmean]
  simp only [sub_self, mul_zero, zero_mul, zero_add, add_zero, zero_div, hsq]
  norm_num [round2, jsRound]

/-- Witness for **C8**: 40 identical 90-minute response times. -/
theorem calculateStatistics_constant_sample_witness :
    (calculateStatistics id id (List.replicate 40 (90:ℚ))).standardError = 0 ∧
    (calculateStatistics id id (List.replicate 40 (90:ℚ))).effectSize = 0 :=
  calculateStatistics_constant_sample id id rfl 90 40 (by norm_num)

theorem estimateTravelTime_100 : estimateTravelTime (some 100) false = 100 := by
  decide

theorem gapForRegion_no_nodes (dist : ℚ → ℚ → ℚ → ℚ → ℚ) (region : RegionStats) :
    gapForRegion dist [] [] region =
      [{ regionName := region.name
         centroid := getRegionCentroid region.name
         nearestFacilityDistance := 100
         nearestFacilityTime := 100
         populationEstimate := (jsOrNat (some region.totalFacilities) 1 : ℚ) * 30000 + 50000
         urgencyScore := 1
         recommendedAction := "Enhance existing facility capabilities" }] := by
  have h1 : gapAvgFor dist [] [] region =
      (100, 100, getRegionCentroid region.name) := by
    show (100, estimateTravelTime (some 100) false, getRegionCentroid region.name) = _
    rw [estimateTravelTime_100]
  show (let adc := gapAvgFor dist [] [] region
    let avgDistance := adc.1
    let avgTime := adc.2.1
    let centroid := adc.2.2
    if avgTime > WHO_ACCESS_THRESHOLD then _ else []) = _
  rw [h1]
  show (if (100:ℚ) > WHO_ACCESS_THRESHOLD then _ else []) = _
  rw [if_pos (by norm_num [WHO_ACCESS_THRESHOLD])]
  have hr1 : round1 (100:ℚ) = 100 := by decide
  have hmin : min ((100:ℚ) / WHO_ACCESS_THRESHOLD) 1 = 1 :=
    min_eq_right (by norm_num [WHO_ACCESS_THRESHOLD])
  rw [hr1, hmin]
  norm_num

/-- **C6** — an empty facility list yields empty nodes, edges and hub list,
and every supplied region summary is still emitted as a coverage gap, with
a 100-minute travel time exceeding the 90-minute standard. -/
theorem optimizeNetwork_empty_facilities (dist : ℚ → ℚ → ℚ → ℚ → ℚ) (sq e : ℚ → ℚ)
    (regs : List RegionStats) :
    (optimizeNetwork dist sq e [] regs).nodes = [] ∧
    (optimizeNetwork dist sq e [] regs).edges = [] ∧
    (optimizeNetwork dist sq e [] regs).hubFacilities = [] ∧
    (optimizeNetwork dist sq e [] regs).coverageGaps.map (·.regionName) =
      regs.map (·.name) ∧
    (optimizeNetwork dist sq e [] regs).coverageGaps.map (·.nearestFacilityTime) =
      regs.map (fun _ => (100:ℚ)) ∧
    WHO_ACCESS_THRESHOLD < 100 := by
  have hbng : buildNetworkGraph dist [] = ([], [], []) := rfl
  have hgaps : detectCoverageGaps dist [] regs =
      regs.map (fun region =>
        { regionName := region.name
          centroid := getRegionCentroid region.name
          nearestFacilityDistance := 100
          nearestFacilityTime := 100
          populationEstimate := (jsOrNat (some region.totalFacilities) 1 : ℚ) * 30000 + 50000
          urgencyScore := 1
          recommendedAction := "Enhance existing facility capabilities" }) := by
    have hraw : detectCoverageGapsRaw dist [] regs =
        regs.map (fun region =>
          { regionName := region.name
            centroid := getRegionCentroid region.name
            nearestFacilityDistance := 100
            nearestFacilityTime := 100
            populationEstimate := (jsOrNat (some region.totalFacilities) 1 : ℚ) * 30000 + 50000
            urgencyScore := 1
            recommendedAction := "Enhance existing facility capabilities" }) := by
      show regs.flatMap (gapForRegion dist [] (regionNodeMapOf [])) = _
      induction regs with
      | nil => rfl
      | cons r t ih =>
        rw [List.flatMap_cons, List.map_cons, ← ih]
        show gapForRegion dist [] [] r ++ _ = _
        rw [gapForRegion_no_nodes]
        rfl
    unfold detectCoverageGaps
    rw [hraw]
    apply List.Sorted.insertionSort_eq
    apply List.pairwise_of_forall_mem_list
    intro a ha b hb
    obtain ⟨ra, _, hra⟩ := List.mem_map.mp ha
    obtain ⟨rb, _, hrb⟩ := List.mem_map.mp hb
    have hua : a.urgencyScore = 1 := by rw [← hra]
    have hub : b.urgencyScore = 1 := by rw [← hrb]
    rw [hua, hub]
  refine ⟨?_, rfl, ?_, ?_, ?_, by norm_num [WHO_ACCESS_THRESHOLD]⟩
  · rfl
  · show identifyHubFacilities (buildNetworkGraph dist []).1
      (buildNetworkGraph dist []).2.1 5 = []
    rw [hbng]
    simp [identifyHubFacilities]
  · show (detectCoverageGaps dist (updatedNodesOf
        (buildNetworkGraph dist []).1 (buildNetworkGraph dist []).2.1) regs).map _ = _
    rw [hbng]
    show (detectCoverageGaps dist [] regs).map _ = _
    rw [hgaps, List.map_map]
    rfl
  · show (detectCoverageGaps dist (updatedNodesOf
        (buildNetworkGraph dist []).1 (buildNetworkGraph dist []).2.1) regs).map _ = _
    rw [hbng]
    show (detectCoverageGaps dist [] regs).map _ = _
    rw [hgaps, List.map_map]
    rfl

/-- **C4** — the Pareto score equals
`round(0.4·coverage% + 0.4·max(0, 100 − meanResponseTime) + 0.2·(100 − 10·gapCount))`
with the equity term unclamped below; consequently an input with more than
10 coverage gaps can produce a negative score, witnessed concretely by two
facilities 150 km apart and eleven gap regions (score −2). -/
theorem paretoScore_formula_and_can_be_negative :
    (∀ (responseTimes : List ℚ) (nodesLen edgesLen : ℕ)
        (distanceMatrix : List FacilityDistance) (gapCount : ℕ),
      (metricsOf responseTimes nodesLen edgesLen distanceMatrix gapCount).paretoScore =
        jsRound (0.4 * coverageRawOf responseTimes +
          0.4 * max 0 (100 - avgResponseRawOf responseTimes) +
          0.2 * (100 - 10 * (gapCount : ℚ)))) ∧
    (optimizeNetwork (distConst 150) id id [facAlpha, facBeta] regsEleven).metrics.paretoScore < 0 := by
  constructor
  · intro responseTimes nodesLen edgesLen distanceMatrix gapCount
    simp only [metricsOf, coverageRawOf, avgResponseRawOf]
    congr 1
    ring
  · show (optimizeNetwork (distConst 150) id id [facAlpha, facBeta] regsEleven).metrics.paretoScore < 0
    decide

theorem gapForRegion_mem (dist : ℚ → ℚ → ℚ → ℚ → ℚ) (nodes : List OptimizationNode)
    (m : List (String × List OptimizationNode)) (region : RegionStats) :
    ∀ g ∈ gapForRegion dist nodes m region,
      g.urgencyScore = 1 ∧ WHO_ACCESS_THRESHOLD < g.nearestFacilityTime ∧
      g.nearestFacilityTime ≤ MAX_DISPLAY_TIME := by
  intro g hg
  have hshape : ∃ b, (gapAvgFor dist nodes m region).2.1 =
      estimateTravelTime (some (gapAvgFor dist nodes m region).1) b := by
    simp only [gapAvgFor]
    split
    · exact ⟨false, rfl⟩
    · exact ⟨_, rfl⟩
  obtain ⟨b, hb⟩ := hshape
  simp only [gapForRegion] at hg
  split at hg
  case isTrue h =>
    rw [List.mem_singleton] at hg
    subst hg
    have h90 : (90:ℚ) < (gapAvgFor dist nodes m region).2.1 := by
      simpa [WHO_ACCESS_THRESHOLD] using h
    have hround : round1 (gapAvgFor dist nodes m region).2.1 =
        (gapAvgFor dist nodes m region).2.1 := by
      rw [hb, round1_estimateTravelTime]
    refine ⟨?_, ?_, ?_⟩
    · show min ((gapAvgFor dist nodes m region).2.1 / WHO_ACCESS_THRESHOLD) 1 = 1
      apply min_eq_right
      rw [WHO_ACCESS_THRESHOLD, le_div_iff (by norm_num : (0:ℚ) < 90)]
      linarith
    · show WHO_ACCESS_THRESHOLD < round1 (gapAvgFor dist nodes m region).2.1
      rw [hround, WHO_ACCESS_THRESHOLD]
      exact h90
    · show round1 (gapAvgFor dist nodes m region).2.1 ≤ MAX_DISPLAY_TIME
      rw [hround, hb]
      exact estimateTravelTime_le_max _ _
  case isFalse h => simp at hg

/-- **C10** — every emitted coverage gap has urgency exactly 1 (the gap
condition `avgTime > 90` forces `min(avgTime/90, 1) = 1`); hence the
descending-urgency sort returns the gap list unchanged (stable sort on
equal keys) and the urgency/time filter before recommending new facilities
excludes nothing. -/
theorem coverageGaps_urgency_saturated (dist : ℚ → ℚ → ℚ → ℚ → ℚ)
    (nodes : List OptimizationNode) (regs : List RegionStats) :
    (detectCoverageGapsRaw dist nodes regs).map (·.urgencyScore) =
      List.replicate (detectCoverageGapsRaw dist nodes regs).length 1 ∧
    detectCoverageGaps dist nodes regs = detectCoverageGapsRaw dist nodes regs ∧
    (detectCoverageGapsRaw dist nodes regs).filter recommendGapFilter =
      detectCoverageGapsRaw dist nodes regs := by
  have hmem : ∀ g ∈ detectCoverageGapsRaw dist nodes regs,
      g.urgencyScore = 1 ∧ WHO_ACCESS_THRESHOLD < g.nearestFacilityTime ∧
      g.nearestFacilityTime ≤ MAX_DISPLAY_TIME := by
    intro g hg
    unfold detectCoverageGapsRaw at hg
    rw [List.mem_flatMap] at hg
    obtain ⟨region, _, hgr⟩ := hg
    exact gapForRegion_mem dist nodes _ region g hgr
  refine ⟨?_, ?_, ?_⟩
  · rw [List.eq_replicate_iff]
    refine ⟨List.length_map _ _, ?_⟩
    intro u hu
    rw [List.mem_map] at hu
    obtain ⟨g, hg, hgu⟩ := hu
    rw [← hgu]
    exact (hmem g hg).1
  · apply List.Sorted.insertionSort_eq
    apply List.pairwise_of_forall_mem_list
    intro a ha b hb
    rw [(hmem a ha).1, (hmem b hb).1]
  · rw [List.filter_eq_self]
    intro g hg
    obtain ⟨h1, h2, _⟩ := hmem g hg
    unfold recommendGapFilter
    rw [h1]
    rw [Bool.and_eq_true]
    exact ⟨decide_eq_true (by norm_num), decide_eq_true h2⟩

/-- **C1** (counterexample) — at a single facility with quality score 0 the
pipeline's hub score is `0.2` (the code multiplies the normalised
accessibility factor by `20`), while the claimed formula
`0.4·conn + 0.4·quality + 0.2·accessibility` gives `0.002`. -/
theorem hubScore_claim_counterexample :
    ((hubScoresOf (buildNetworkGraph (distConst 150) [facQzero]).1
        (buildNetworkGraph (distConst 150) [facQzero]).2.1).map (·.hubScore) = [1/5]) ∧
    ((buildNetworkGraph (distConst 150) [facQzero]).1.map
        (specHubScore (buildNetworkGraph (distConst 150) [facQzero]).2.1) = [1/500]) ∧
    ((1:ℚ)/5 ≠ 1/500) := by
  refine ⟨?_, ?_, by norm_num⟩ <;> decide

theorem selectHubsGo_length_le : ∀ (l sel : List HubScore) (used : List String),
    sel.length ≤ 5 → (selectHubsGo l sel used).length ≤ 5
  | [], _, _, h => h
  | hub :: rest, sel, used, h => by
    unfold selectHubsGo
    split
    · exact h
    · split
      · exact selectHubsGo_length_le rest sel used h
      · next h5 _ =>
        refine selectHubsGo_length_le rest _ _ ?_
        rw [List.length_append]
        simp only [List.length_singleton]
        omega

/-- **C1** (amended) — the hub score the code ranks by is
`0.4·uniqueConnections + 0.4·quality + 20·accessibilityFactor` (equivalently
`0.2·max(1, 100 − nearestDistance)`, i.e. the spec's `0.2` weight applies to
the *unnormalised* accessibility, a factor 100 larger than claimed);
candidates are sorted descending by this score and at most five are selected. -/
theorem hubScores_formula_and_ranking (nodes : List OptimizationNode)
    (edges : List NetworkEdge) :
    ((hubScoresOf nodes edges).map (·.hubScore) =
      nodes.map (fun node =>
        (uniqueConnectionsOf (connectionCountsOf edges) node.facilityId : ℚ) * 0.4 +
        node.qualityScore * 0.4 +
        (max 1 (100 - (match node.nearestFacilityDistance with
          | some d => d
          | none => 100)) / 100) * 20)) ∧
    List.Pairwise (fun a b : HubScore => b.hubScore ≤ a.hubScore)
      (sortedHubsOf nodes edges) ∧
    (selectedHubsOf nodes edges).length ≤ 5 := by
  refine ⟨?_, ?_, ?_⟩
  · simp only [hubScoresOf, List.map_map]
    rfl
  · haveI : IsTotal HubScore (fun a b => b.hubScore ≤ a.hubScore) :=
      ⟨fun a b => le_total b.hubScore a.hubScore⟩
    haveI : IsTrans HubScore (fun a b => b.hubScore ≤ a.hubScore) :=
      ⟨fun _ _ _ hab hbc => le_trans hbc hab⟩
    exact List.sorted_insertionSort _ _
  · exact selectHubsGo_length_le _ [] [] (by norm_num)

theorem mem_setAdd {s : List String} {v r : String} :
    r ∈ setAdd s v ↔ r ∈ s ∨ r = v := by
  unfold setAdd
  split
  · next hv =>
    constructor
    · exact Or.inl
    · rintro (h | rfl)
      · exact h
      · exact hv
  · simp [List.mem_append]

theorem selectHubsGo_take3_pairwise :
    ∀ (l sel : List HubScore) (used : List String),
      (∀ r, r ∈ used ↔ r ∈ sel.map (·.node.region)) →
      (sel.take 3).Pairwise (fun a b => a.node.region ≠ b.node.region) →
      ((selectHubsGo l sel used).take 3).Pairwise
        (fun a b => a.node.region ≠ b.node.region)
  | [], _, _, _, h2 => h2
  | hub :: rest, sel, used, h1, h2 => by
    unfold selectHubsGo
    split
    · exact h2
    · split
      · exact selectHubsGo_take3_pairwise rest sel used h1 h2
      · next h5 hskip =>
        refine selectHubsGo_take3_pairwise rest (sel ++ [hub]) (setAdd used hub.node.region)
          ?_ ?_
        · intro r
          rw [mem_setAdd, h1, List.map_append, List.mem_append]
          simp
        · by_cases hlen : sel.length < 3
          · have hnotin : hub.node.region ∉ used := fun hmem => hskip ⟨hlen, hmem⟩
            rw [h1] at hnotin
            have hall : sel.length + 1 ≤ 3 := by omega
            rw [List.take_of_length_le (by simpa using hall)]
            rw [List.pairwise_append]
            refine ⟨?_, List.pairwise_singleton _ _, ?_⟩
            · have := List.take_of_length_le (le_of_lt hlen)
              rw [this] at h2
              exact h2
            · intro a ha b hb
              rw [List.mem_singleton] at hb
              subst hb
              intro hcontra
              exact hnotin (List.mem_map.mpr ⟨a, ha, hcontra⟩)
          · rw [List.take_append_of_le_length (by omega)]
            exact h2

theorem selectHubsGo_length_ge :
    ∀ (l sel : List HubScore) (used : List String),
      (∀ r, r ∈ used ↔ r ∈ sel.map (·.node.region)) →
      3 ≤ ((sel.map (·.node.region)) ++ (l.map (·.node.region))).toFinset.card →
      3 ≤ (selectHubsGo l sel used).length
  | [], sel, used, _, hcard => by
    simp only [List.map_nil, List.append_nil] at hcard
    calc 3 ≤ (sel.map (·.node.region)).toFinset.card := hcard
      _ ≤ (sel.map (·.node.region)).length := List.toFinset_card_le _
      _ = sel.length := List.length_map _ _
  | hub :: rest, sel, used, h1, hcard => by
    unfold selectHubsGo
    split
    · next h5 => omega
    · split
      · next hskip =>
        refine selectHubsGo_length_ge rest sel used h1 ?_
        have hmem : hub.node.region ∈ sel.map (·.node.region) := (h1 _).mp hskip.2
        have : ((sel.map (·.node.region)) ++ ((hub :: rest).map (·.node.region))).toFinset =
            ((sel.map (·.node.region)) ++ (rest.map (·.node.region))).toFinset := by
          simp only [List.map_cons, List.toFinset_append, List.toFinset_cons]
          rw [Finset.union_insert, Finset.insert_eq_self.mpr]
          exact Finset.mem_union_left _ (List.mem_toFinset.mpr hmem)
        rw [this] at hcard
        exact hcard
      · next h5 hskip =>
        refine selectHubsGo_length_ge rest (sel ++ [hub]) (setAdd used hub.node.region)
          ?_ ?_
        · intro r
          rw [mem_setAdd, h1, List.map_append, List.mem_append]
          simp
        · have : ((sel ++ [hub]).map (·.node.region)) ++ (rest.map (·.node.region)) =
              (sel.map (·.node.region)) ++ ((hub :: rest).map (·.node.region)) := by
            simp [List.map_append]
          rw [this]
          exact hcard

/-- **C5** — when the built nodes carry at least three distinct region
labels, at least three hubs are selected and no two of the first three share
a region label (the selection loop skips already-used regions while fewer
than three hubs are chosen). -/
theorem top3_hub_regions_distinct (nodes : List OptimizationNode)
    (edges : List NetworkEdge) (h : 3 ≤ (nodes.map (·.region)).toFinset.card) :
    3 ≤ (selectedHubsOf nodes edges).length ∧
    ((selectedHubsOf nodes edges).take 3).Pairwise
      (fun a b => a.node.region ≠ b.node.region) := by
  have hmap : ((sortedHubsOf nodes edges).map (fun x : HubScore => x.node.region)).Perm
      (nodes.map (·.region)) := by
    have h1 : (sortedHubsOf nodes edges).Perm (hubScoresOf nodes edges) :=
      List.perm_insertionSort _ _
    have h2 := h1.map (fun x : HubScore => x.node.region)
    have h3 : (hubScoresOf nodes edges).map (fun x : HubScore => x.node.region) =
        nodes.map (·.region) := by
      simp only [hubScoresOf, List.map_map]
      rfl
    rwa [h3] at h2
  constructor
  · refine selectHubsGo_length_ge _ [] [] (by simp) ?_
    rw [List.map_nil, List.nil_append, List.toFinset_eq_of_perm _ _ hmap]
    exact h
  · exact selectHubsGo_take3_pairwise _ [] [] (by simp) (by simp)

/-- Witness for **C5**: four literal nodes spanning three regions. -/
theorem top3_hub_regions_distinct_witness :
    (3 ≤ (nodesThreeRegions.map (·.region)).toFinset.card) ∧
    (3 ≤ (selectedHubsOf nodesThreeRegions []).length ∧
     ((selectedHubsOf nodesThreeRegions []).take 3).Pairwise
       (fun a b => a.node.region ≠ b.node.region)) :=
  ⟨by decide,
   top3_hub_regions_distinct nodesThreeRegions [] (by decide)⟩

theorem estimateTravelTime_of_le_edge {d : ℚ} (h : d ≤ MAX_EDGE_DISTANCE) :
    estimateTravelTime (some d) (decide (d < 20)) =
      round1 (d / (if d < 20 then TRAVEL_SPEEDS_urban else TRAVEL_SPEEDS_rural) * 60) := by
  rw [MAX_EDGE_DISTANCE] at h
  have hcap : min d MAX_DISPLAY_DISTANCE = d :=
    min_eq_left (by rw [MAX_DISPLAY_DISTANCE]; linarith)
  show min (round1 (min d MAX_DISPLAY_DISTANCE /
    (if decide (d < 20) then TRAVEL_SPEEDS_urban else TRAVEL_SPEEDS_rural) * 60))
    MAX_DISPLAY_TIME = _
  rw [hcap]
  have hif : (if decide (d < 20) = true then TRAVEL_SPEEDS_urban else TRAVEL_SPEEDS_rural) =
      (if d < 20 then TRAVEL_SPEEDS_urban else TRAVEL_SPEEDS_rural) := by
    simp only [decide_eq_true_eq]
  rw [hif]
  apply min_eq_left
  by_cases hd : d < 20
  · rw [if_pos hd]
    have heq : d / TRAVEL_SPEEDS_urban * 60 = 2 * d := by
      rw [TRAVEL_SPEEDS_urban]; ring
    rw [heq]
    have h600 : (2:ℚ) * d ≤ ((600:ℤ):ℚ) := by push_cast; linarith
    calc round1 (2*d) ≤ ((600:ℤ):ℚ) := round1_le_int h600
      _ ≤ MAX_DISPLAY_TIME := by rw [MAX_DISPLAY_TIME]; norm_num
  · rw [if_neg hd]
    have heq : d / TRAVEL_SPEEDS_rural * 60 = d := by
      rw [TRAVEL_SPEEDS_rural]; ring
    rw [heq]
    have h300 : d ≤ ((300:ℤ):ℚ) := by push_cast; linarith
    calc round1 d ≤ ((300:ℤ):ℚ) := round1_le_int h300
      _ ≤ MAX_DISPLAY_TIME := by rw [MAX_DISPLAY_TIME]; norm_num

theorem goodEdge_mk (a b c dd : String) (w : ℚ) {d : ℚ} (h : d ≤ MAX_EDGE_DISTANCE) :
    GoodEdge { fromId := a, toId := b, fromName := c, toName := dd,
               distance := formatDistance (some d),
               travelTime := estimateTravelTime (some d) (decide (d < 20)),
               weight := w } := by
  have hd2400 : d ≤ MAX_DISPLAY_DISTANCE :=
    le_trans h (by rw [MAX_EDGE_DISTANCE, MAX_DISPLAY_DISTANCE]; norm_num)
  have hfmt : formatDistance (some d) = round1 d := formatDistance_of_le hd2400
  refine ⟨?_, ?_, d, h, hfmt, estimateTravelTime_of_le_edge h⟩
  · show formatDistance (some d) ≤ MAX_EDGE_DISTANCE
    rw [hfmt, MAX_EDGE_DISTANCE]
    have : d ≤ ((300:ℤ):ℚ) := by
      rw [MAX_EDGE_DISTANCE] at h; push_cast; linarith
    simpa using round1_le_int this
  · exact estimateTravelTime_le_max _ _

theorem scanStep_edges_good (dist : ℚ → ℚ → ℚ → ℚ → ℚ)
    (nodes : List OptimizationNode) (i : ℕ) (st : ScanState) (j : ℕ)
    (h : ∀ ed ∈ st.edges, GoodEdge ed) :
    ∀ ed ∈ (scanStep dist nodes i st j).edges, GoodEdge ed := by
  intro ed hed
  simp only [scanStep] at hed
  split_ifs at hed
  all_goals first
    | exact h ed hed
    | (rw [List.mem_append] at hed
       rcases hed with hed | hed
       · exact h ed hed
       · rw [List.mem_singleton] at hed
         subst hed
         apply goodEdge_mk
         assumption)

theorem fallbackStep_edges (dist : ℚ → ℚ → ℚ → ℚ → ℚ)
    (nodes : List OptimizationNode) (i : ℕ) (st : ScanState) (j : ℕ) :
    (fallbackStep dist nodes i st j).edges = st.edges := by
  simp only [fallbackStep]
  split_ifs <;> rfl

theorem scanNode_edges_good (dist : ℚ → ℚ → ℚ → ℚ → ℚ)
    (nodes : List OptimizationNode) (grid : SpatialGrid) (i : ℕ) (st0 : ScanState)
    (h : ∀ ed ∈ st0.edges, GoodEdge ed) :
    ∀ ed ∈ (scanNode dist nodes grid i st0).edges, GoodEdge ed := by
  have h1 : ∀ ed ∈ ((getNearbyIndices grid (nodes.getD i default).lat
      (nodes.getD i default).lng 4).foldl (scanStep dist nodes i) st0).edges, GoodEdge ed :=
    foldl_preserve (fun s => ∀ ed ∈ s.edges, GoodEdge ed) (scanStep dist nodes i) _ st0
      (fun s j _ hInv => scanStep_edges_good dist nodes i s j hInv) h
  simp only [scanNode]
  split
  · intro ed hed
    refine foldl_preserve (fun s => ∀ ed ∈ s.edges, GoodEdge ed)
      (fallbackStep dist nodes i) (List.range nodes.length) _ ?_ h1 ed hed
    intro s j _ hInv ed' hed'
    rw [fallbackStep_edges] at hed'
    exact hInv ed' hed'
  · exact h1

theorem matrixRowsOf_bounds (nodes : List OptimizationNode) (i : ℕ) (st2 : ScanState) :
    ∀ m ∈ matrixRowsOf nodes i st2,
      m.distanceKm ≤ MAX_DISPLAY_DISTANCE ∧ m.travelTimeMinutes ≤ MAX_DISPLAY_TIME := by
  intro m hm
  simp only [matrixRowsOf] at hm
  split at hm
  · rw [List.mem_singleton] at hm
    subst hm
    exact ⟨formatDistance_le_max _, estimateTravelTime_le_max _ _⟩
  · simp at hm

theorem processedNodeOf_capped (nodes : List OptimizationNode) (i : ℕ) (st2 : ScanState) :
    NodeCapped (processedNodeOf nodes i st2) := by
  intro q hq
  simp only [processedNodeOf] at hq
  rw [Option.some_inj] at hq
  rw [← hq]
  exact formatDistance_le_max _

theorem processNode_inv (dist : ℚ → ℚ → ℚ → ℚ → ℚ) (nodes : List OptimizationNode)
    (grid : SpatialGrid) (acc : GraphAcc) (i : ℕ) (h : GraphInv acc) :
    GraphInv (processNode dist nodes grid acc i) := by
  obtain ⟨hE, hN, hM⟩ := h
  refine ⟨?_, ?_, ?_⟩
  · show ∀ ed ∈ (scanNode dist nodes grid i _).edges, GoodEdge ed
    exact scanNode_edges_good dist nodes grid i _ hE
  · show ∀ nd ∈ acc.nodesOut ++ [processedNodeOf nodes i _], NodeCapped nd
    intro nd hnd
    rw [List.mem_append] at hnd
    rcases hnd with hnd | hnd
    · exact hN nd hnd
    · rw [List.mem_singleton] at hnd
      subst hnd
      exact processedNodeOf_capped nodes i _
  · show ∀ m ∈ acc.distanceMatrix ++ matrixRowsOf nodes i _,
      m.distanceKm ≤ MAX_DISPLAY_DISTANCE ∧ m.travelTimeMinutes ≤ MAX_DISPLAY_TIME
    intro m hm
    rw [List.mem_append] at hm
    rcases hm with hm | hm
    · exact hM m hm
    · exact matrixRowsOf_bounds nodes i _ m hm

/-- The invariant holds of the full graph build. -/
theorem buildNetworkGraph_inv (dist : ℚ → ℚ → ℚ → ℚ → ℚ)
    (facilities : List CleanedFacility) :
    (∀ ed ∈ (buildNetworkGraph dist facilities).2.1, GoodEdge ed) ∧
    (∀ nd ∈ (buildNetworkGraph dist facilities).1, NodeCapped nd) ∧
    (∀ m ∈ (buildNetworkGraph dist facilities).2.2,
      m.distanceKm ≤ MAX_DISPLAY_DISTANCE ∧ m.travelTimeMinutes ≤ MAX_DISPLAY_TIME) := by
  simp only [buildNetworkGraph]
  split
  · exact ⟨by simp, by simp, by simp⟩
  · have hinv : GraphInv ((List.range (facilities.filterMap protoNode).length).foldl
        (processNode dist (facilities.filterMap protoNode)
          (buildGrid (facilities.filterMap protoNode)))
        { edges := [], edgeSet := [], nodesOut := [], distanceMatrix := [] }) := by
      refine foldl_preserve GraphInv _ _ _ ?_ ⟨by simp, by simp, by simp⟩
      intro s a _ hs
      exact processNode_inv dist _ _ s a hs
    exact ⟨hinv.1, hinv.2.1, hinv.2.2⟩

/-- **C2** — every generated edge has `distance ≤ MAX_EDGE_DISTANCE`, and its
`travelTime` is the one-decimal rounding of `rawDistance / speed * 60`, where
the urban speed applies exactly when the raw distance is below 20 km (the
stored `distance` is the same raw distance rounded to one decimal). -/
theorem edges_within_threshold (dist : ℚ → ℚ → ℚ → ℚ → ℚ) (sq e : ℚ → ℚ)
    (facilities : List CleanedFacility) (regionStats : List RegionStats) :
    ∀ ed ∈ (optimizeNetwork dist sq e facilities regionStats).edges,
      ed.distance ≤ MAX_EDGE_DISTANCE ∧
      ∃ d : ℚ, d ≤ MAX_EDGE_DISTANCE ∧ ed.distance = round1 d ∧
        ed.travelTime =
          round1 (d / (if d < 20 then TRAVEL_SPEEDS_urban else TRAVEL_SPEEDS_rural) * 60) := by
  intro ed hed
  have hopt : (optimizeNetwork dist sq e facilities regionStats).edges =
      (buildNetworkGraph dist facilities).2.1 := rfl
  rw [hopt] at hed
  have hg := (buildNetworkGraph_inv dist facilities).1 ed hed
  exact ⟨hg.1, hg.2.2⟩

/-- Witness for **C2**: the single edge of a two-facility network 150 km
apart. -/
theorem edges_within_threshold_witness :
    ((optimizeNetwork (distConst 150) id id [facAlpha, facBeta] []).edges.getD 0 default ∈
      (optimizeNetwork (distConst 150) id id [facAlpha, facBeta] []).edges) ∧
    (((optimizeNetwork (distConst 150) id id [facAlpha, facBeta] []).edges.getD 0 default).distance
        ≤ MAX_EDGE_DISTANCE ∧
      ∃ d : ℚ, d ≤ MAX_EDGE_DISTANCE ∧
        ((optimizeNetwork (distConst 150) id id [facAlpha, facBeta] []).edges.getD 0 default).distance
          = round1 d ∧
        ((optimizeNetwork (distConst 150) id id [facAlpha, facBeta] []).edges.getD 0 default).travelTime
          = round1 (d / (if d < 20 then TRAVEL_SPEEDS_urban else TRAVEL_SPEEDS_rural) * 60)) := by
  have hmem : (optimizeNetwork (distConst 150) id id [facAlpha, facBeta] []).edges.getD 0 default ∈
      (optimizeNetwork (distConst 150) id id [facAlpha, facBeta] []).edges := by
    decide
  exact ⟨hmem, edges_within_threshold (distConst 150) id id [facAlpha, facBeta] [] _ hmem⟩

theorem jsMinFoldAux_le {B : ℚ} :
    ∀ (l : List ℚ) (acc : Option ℚ), (∀ t ∈ l, t ≤ B) →
      (∀ t, acc = some t → t ≤ B) →
      ∀ t, l.foldl (fun m t => if ltOpt t m then some t else m) acc = some t → t ≤ B
  | [], _, _, hacc, t, ht => hacc t ht
  | x :: xs, acc, hl, hacc, t, ht => by
    rw [List.foldl_cons] at ht
    refine jsMinFoldAux_le xs _ (fun u hu => hl u (List.mem_cons_of_mem x hu)) ?_ t ht
    intro u hu
    split at hu
    · rw [Option.some_inj] at hu
      rw [← hu]
      exact hl x (List.mem_cons_self x xs)
    · exact hacc u hu

theorem jsMinFold_le {B : ℚ} (l : List ℚ) (hl : ∀ t ∈ l, t ≤ B) :
    ∀ t, jsMinFold l = some t → t ≤ B :=
  jsMinFoldAux_le l none hl (by simp)

theorem edge_getD_travelTime_le (edges : List NetworkEdge)
    (hE : ∀ ed ∈ edges, GoodEdge ed) (idx : ℕ) :
    (edges.getD idx default).travelTime ≤ MAX_DISPLAY_TIME := by
  by_cases hidx : idx < edges.length
  · rw [List.getD_eq_getElem edges default hidx]
    exact (hE _ (List.getElem_mem hidx)).2.1
  · rw [List.getD_eq_default edges default (le_of_not_lt hidx)]
    show (0:ℚ) ≤ MAX_DISPLAY_TIME
    rw [MAX_DISPLAY_TIME]
    norm_num

theorem respOf_le (edges : List NetworkEdge) (m : List (String × List ℕ))
    (node : OptimizationNode) (hE : ∀ ed ∈ edges, GoodEdge ed) :
    respOf edges m node ≤ MAX_DISPLAY_TIME := by
  unfold respOf
  split
  · next idxs _ =>
    split
    · cases hjs : jsMinFold (idxs.map (fun idx => (edges.getD idx default).travelTime)) with
      | none =>
        show (0:ℚ) ≤ MAX_DISPLAY_TIME
        rw [MAX_DISPLAY_TIME]; norm_num
      | some t =>
        show t ≤ MAX_DISPLAY_TIME
        refine jsMinFold_le _ ?_ t hjs
        intro u hu
        rw [List.mem_map] at hu
        obtain ⟨idx, _, hidx⟩ := hu
        rw [← hidx]
        exact edge_getD_travelTime_le edges hE idx
    · exact estimateTravelTime_le_max _ _
  · exact estimateTravelTime_le_max _ _

theorem lookup_mem :
    ∀ (g : List (CellKey × List ℕ)) (k : CellKey) (c : List ℕ),
      g.lookup k = some c → ∃ kc ∈ g, kc.2 = c
  | [], _, _, h => by simp [List.lookup] at h
  | (k', c') :: rest, k, c, h => by
    rw [List.lookup] at h
    split at h
    · rw [Option.some_inj] at h
      exact ⟨(k', c'), List.mem_cons_self _ _, h⟩
    · obtain ⟨kc, hkc, hc⟩ := lookup_mem rest k c h
      exact ⟨kc, List.mem_cons_of_mem _ hkc, hc⟩

theorem gridAdd_indices {g : SpatialGrid} {k : CellKey} {i n : ℕ}
    (hg : ∀ kc ∈ g, ∀ j ∈ kc.2, j < n) (hi : i < n) :
    ∀ kc ∈ gridAdd g k i, ∀ j ∈ kc.2, j < n := by
  induction g with
  | nil =>
    intro kc hkc j hj
    rw [gridAdd, List.mem_singleton] at hkc
    subst hkc
    rw [List.mem_singleton] at hj
    subst hj
    exact hi
  | cons hd tl ih =>
    intro kc hkc j hj
    obtain ⟨k', cell⟩ := hd
    rw [gridAdd] at hkc
    split at hkc
    · rcases List.mem_cons.mp hkc with hkc | hkc
      · subst hkc
        rcases List.mem_append.mp hj with hj | hj
        · exact hg (k', cell) (List.mem_cons_self _ _) j hj
        · rw [List.mem_singleton] at hj
          subst hj
          exact hi
      · exact hg kc (List.mem_cons_of_mem _ hkc) j hj
    · rcases List.mem_cons.mp hkc with hkc | hkc
      · subst hkc
        exact hg (k', cell) (List.mem_cons_self _ _) j hj
      · exact ih (fun kc' hkc' => hg kc' (List.mem_cons_of_mem _ hkc')) kc hkc j hj

theorem buildGrid_indices (nodes : List OptimizationNode) :
    ∀ kc ∈ buildGrid nodes, ∀ j ∈ kc.2, j < nodes.length := by
  unfold buildGrid
  exact foldl_preserve (fun g => ∀ kc ∈ g, ∀ j ∈ kc.2, j < nodes.length)
    (fun g i => gridAdd g (getCellKey (nodes.getD i default).lat (nodes.getD i default).lng) i)
    (List.range nodes.length) []
    (fun g a ha hInv => gridAdd_indices hInv (List.mem_range.mp ha))
    (by simp)

theorem getNearbyIndices_lt {g : SpatialGrid} {n : ℕ}
    (hg : ∀ kc ∈ g, ∀ j ∈ kc.2, j < n) (lat lng : ℚ) (r : ℕ) :
    ∀ j ∈ getNearbyIndices g lat lng r, j < n := by
  intro j hj
  simp only [getNearbyIndices] at hj
  rw [List.mem_flatMap] at hj
  obtain ⟨dLat, _, hj⟩ := hj
  rw [List.mem_flatMap] at hj
  obtain ⟨dLng, _, hj⟩ := hj
  cases hlk : g.lookup (⌊lat / GRID_CELL_SIZE⌋ + dLat, ⌊lng / GRID_CELL_SIZE⌋ + dLng) with
  | none => rw [hlk] at hj; simp at hj
  | some cell =>
    rw [hlk] at hj
    obtain ⟨kc, hkc, hc⟩ := lookup_mem g _ cell hlk
    exact hg kc hkc j (hc ▸ hj)

theorem scanStep_self (dist : ℚ → ℚ → ℚ → ℚ → ℚ) (nodes : List OptimizationNode)
    (i : ℕ) (st : ScanState) : scanStep dist nodes i st i = st := by
  simp [scanStep]

/-- With exactly one valid facility, the built node's nearest-facility
distance is the display cap (the grid scan only meets the node itself and
the exhaustive fallback is skipped, so `formatDistance Infinity` applies). -/
theorem buildNetworkGraph_single (dist : ℚ → ℚ → ℚ → ℚ → ℚ)
    (facilities : List CleanedFacility)
    (h : (facilities.filterMap protoNode).length = 1) :
    (buildNetworkGraph dist facilities).1.map (·.nearestFacilityDistance) =
      [some MAX_DISPLAY_DISTANCE] := by
  obtain ⟨p, hp⟩ := List.length_eq_one.mp h
  simp only [buildNetworkGraph, hp]
  rw [if_neg (by simp)]
  have hrange : List.range 1 = [0] := rfl
  simp only [List.length_singleton]
  rw [hrange, List.foldl_cons, List.foldl_nil]
  have hst : scanNode dist [p] (buildGrid [p]) 0
      { minDist := none, nearestName := "None", nearestId := "",
        edges := [], edgeSet := [] } =
      { minDist := none, nearestName := "None", nearestId := "",
        edges := [], edgeSet := [] } := by
    simp only [scanNode]
    have hfix : (getNearbyIndices (buildGrid [p]) (([p] : List OptimizationNode).getD 0 default).lat
        (([p] : List OptimizationNode).getD 0 default).lng 4).foldl
        (scanStep dist [p] 0)
        { minDist := none, nearestName := "None", nearestId := "",
          edges := [], edgeSet := [] } =
        { minDist := none, nearestName := "None", nearestId := "",
          edges := [], edgeSet := [] } := by
      apply foldl_fixed
      intro s j hj
      have hj1 : j < 1 := getNearbyIndices_lt (buildGrid_indices [p]) _ _ 4 j hj
      have hj0 : j = 0 := by omega
      rw [hj0]
      exact scanStep_self dist [p] 0 s
    rw [hfix]
    rw [if_neg (by simp)]
  show (List.map (·.nearestFacilityDistance)
    ([] ++ [processedNodeOf [p] 0 (scanNode dist [p] (buildGrid [p]) 0 _)])) = _
  rw [hst]
  rfl

/-- **C3** (amended) — every node nearest-facility distance, edge distance
and travel time, coverage-gap travel time, and distance-matrix entry in the
result is capped at the display maxima (and, being rational values of the
embedding, finite); an input with exactly one valid facility yields the
capped nearest-facility distance `MAX_DISPLAY_DISTANCE`.  The exception
forced by the counterexample below: a coverage gap's
`nearestFacilityDistance` for a region with no matching facilities is the
raw centroid-to-nearest-node distance, which is *not* capped. -/
theorem result_distances_and_times_capped (dist : ℚ → ℚ → ℚ → ℚ → ℚ) (sq e : ℚ → ℚ)
    (facilities : List CleanedFacility) (regionStats : List RegionStats) :
    (∀ nd ∈ (optimizeNetwork dist sq e facilities regionStats).nodes,
      (∀ q : ℚ, nd.nearestFacilityDistance = some q → q ≤ MAX_DISPLAY_DISTANCE) ∧
      nd.responseTimeMinutes ≤ MAX_DISPLAY_TIME) ∧
    (∀ ed ∈ (optimizeNetwork dist sq e facilities regionStats).edges,
      ed.distance ≤ MAX_DISPLAY_DISTANCE ∧ ed.travelTime ≤ MAX_DISPLAY_TIME) ∧
    (∀ g ∈ (optimizeNetwork dist sq e facilities regionStats).coverageGaps,
      g.nearestFacilityTime ≤ MAX_DISPLAY_TIME) ∧
    (∀ m ∈ (optimizeNetwork dist sq e facilities regionStats).facilityDistanceMatrix,
      m.distanceKm ≤ MAX_DISPLAY_DISTANCE ∧ m.travelTimeMinutes ≤ MAX_DISPLAY_TIME) ∧
    ((facilities.filterMap protoNode).length = 1 →
      (optimizeNetwork dist sq e facilities regionStats).nodes.map
        (·.nearestFacilityDistance) = [some MAX_DISPLAY_DISTANCE]) := by
  obtain ⟨hE, hN, hM⟩ := buildNetworkGraph_inv dist facilities
  refine ⟨?_, ?_, ?_, ?_, ?_⟩
  · intro nd hnd
    have : nd ∈ updatedNodesOf (buildNetworkGraph dist facilities).1
        (buildNetworkGraph dist facilities).2.1 := hnd
    rw [updatedNodesOf, List.mem_map] at this
    obtain ⟨node, hn, hupd⟩ := this
    constructor
    · intro q hq
      rw [← hupd] at hq
      exact hN node hn q hq
    · rw [← hupd]
      exact respOf_le _ _ node hE
  · intro ed hed
    have hg := hE ed hed
    refine ⟨le_trans hg.1 ?_, hg.2.1⟩
    rw [MAX_EDGE_DISTANCE, MAX_DISPLAY_DISTANCE]
    norm_num
  · intro g hg
    have : g ∈ detectCoverageGaps dist
        (updatedNodesOf (buildNetworkGraph dist facilities).1
          (buildNetworkGraph dist facilities).2.1) regionStats := hg
    rw [detectCoverageGaps] at this
    rw [(List.perm_insertionSort _ _).mem_iff] at this
    rw [detectCoverageGapsRaw, List.mem_flatMap] at this
    obtain ⟨region, _, hgr⟩ := this
    exact (gapForRegion_mem dist _ _ region g hgr).2.2
  · intro m hm
    exact hM m hm
  · intro h1
    have hsingle := buildNetworkGraph_single dist facilities h1
    show (updatedNodesOf (buildNetworkGraph dist facilities).1
      (buildNetworkGraph dist facilities).2.1).map (·.nearestFacilityDistance) = _
    rw [updatedNodesOf, List.map_map]
    exact hsingle

/-- **C3** (counterexample) — with one facility and a region matching no
facility and no gazetteer key, the coverage-gap distance equals the raw
centroid-to-node distance 2500 km, exceeding the display cap of 2400 km
that every other distance field respects.  (The real haversine attains
2500 km between valid coordinate pairs; its range reaches about 20015 km
at the antipodes.) -/
theorem gap_distance_uncapped_counterexample :
    (optimizeNetwork (distConst 2500) id id [facAlpha] [regZq]).coverageGaps.map
      (·.nearestFacilityDistance) = [2500] ∧
    ¬ ((2500 : ℚ) ≤ MAX_DISPLAY_DISTANCE) := by
  constructor
  · decide
  · rw [MAX_DISPLAY_DISTANCE]
    norm_num

/-- Witness for the amended **C3** at a single-facility input. -/
theorem result_distances_and_times_capped_witness :
    (optimizeNetwork (distConst 150) id id [facAlpha] [regZq]).nodes.map
      (·.nearestFacilityDistance) = [some MAX_DISPLAY_DISTANCE] :=
  (result_distances_and_times_capped (distConst 150) id id [facAlpha] [regZq]).2.2.2.2
    (by decide)

/-- **C7** — for a non-empty node set, the reported coverage percentage is
the one-decimal rounding of
`(#nodes with responseTime ≤ 90) / totalNodes * 100`. -/
theorem coveragePercentage_correct (dist : ℚ → ℚ → ℚ → ℚ → ℚ) (sq e : ℚ → ℚ)
    (facilities : List CleanedFacility) (regionStats : List RegionStats)
    (h : (optimizeNetwork dist sq e facilities regionStats).nodes ≠ []) :
    (optimizeNetwork dist sq e facilities regionStats).metrics.coveragePercentage =
      round1 (((optimizeNetwork dist sq e facilities regionStats).nodes.countP
          (fun nd => decide (nd.responseTimeMinutes ≤ WHO_ACCESS_THRESHOLD)) : ℚ) /
        ((optimizeNetwork dist sq e facilities regionStats).nodes.length : ℚ) * 100) := by
  have hne : updatedNodesOf (buildNetworkGraph dist facilities).1
      (buildNetworkGraph dist facilities).2.1 ≠ [] := h
  have hlen0 : 0 < (buildNetworkGraph dist facilities).1.length := by
    have := List.length_pos.mpr hne
    rwa [updatedNodesOf, List.length_map] at this
  have hcount : (updatedNodesOf (buildNetworkGraph dist facilities).1
        (buildNetworkGraph dist facilities).2.1).countP
        (fun nd => decide (nd.responseTimeMinutes ≤ WHO_ACCESS_THRESHOLD)) =
      (responseTimesOf (buildNetworkGraph dist facilities).1
        (buildNetworkGraph dist facilities).2.1).countP
        (fun t => decide (t ≤ WHO_ACCESS_THRESHOLD)) := by
    rw [updatedNodesOf, responseTimesOf, List.countP_map, List.countP_map]
    rfl
  have hlen : (updatedNodesOf (buildNetworkGraph dist facilities).1
        (buildNetworkGraph dist facilities).2.1).length =
      (responseTimesOf (buildNetworkGraph dist facilities).1
        (buildNetworkGraph dist facilities).2.1).length := by
    rw [updatedNodesOf, responseTimesOf, List.length_map, List.length_map]
  have hpos : (responseTimesOf (buildNetworkGraph dist facilities).1
      (buildNetworkGraph dist facilities).2.1).length > 0 := by
    rw [responseTimesOf, List.length_map]
    exact hlen0
  show round1 (if (responseTimesOf (buildNetworkGraph dist facilities).1
        (buildNetworkGraph dist facilities).2.1).length > 0 then
      ((responseTimesOf (buildNetworkGraph dist facilities).1
          (buildNetworkGraph dist facilities).2.1).countP
        (fun t => decide (t ≤ WHO_ACCESS_THRESHOLD)) : ℚ) /
        ((responseTimesOf (buildNetworkGraph dist facilities).1
          (buildNetworkGraph dist facilities).2.1).length : ℚ) * 100
    else 0) = _
  rw [if_pos hpos]
  show _ = round1 (((updatedNodesOf (buildNetworkGraph dist facilities).1
      (buildNetworkGraph dist facilities).2.1).countP
        (fun nd => decide (nd.responseTimeMinutes ≤ WHO_ACCESS_THRESHOLD)) : ℚ) /
      ((updatedNodesOf (buildNetworkGraph dist facilities).1
        (buildNetworkGraph dist facilities).2.1).length : ℚ) * 100)
  rw [hcount, hlen]

/-- Witness for **C7** at a single-facility input (coverage 0%). -/
theorem coveragePercentage_correct_witness :
    (optimizeNetwork (distConst 150) id id [facAlpha] []).nodes ≠ [] ∧
    (optimizeNetwork (distConst 150) id id [facAlpha] []).metrics.coveragePercentage =
      round1 (((optimizeNetwork (distConst 150) id id [facAlpha] []).nodes.countP
          (fun nd => decide (nd.responseTimeMinutes ≤ WHO_ACCESS_THRESHOLD)) : ℚ) /
        ((optimizeNetwork (distConst 150) id id [facAlpha] []).nodes.length : ℚ) * 100) := by
  have hne : (optimizeNetwork (distConst 150) id id [facAlpha] []).nodes ≠ [] := by
    decide
  exact ⟨hne, coveragePercentage_correct (distConst 150) id id [facAlpha] [] hne⟩
